import Mathlib

/-!
Verification of the ingress-monitor-controller monitor synchronization engine.

The Go sources are embedded shallowly: pure helpers become Lean functions,
the provider and the JSON decoder become oracle records of functions, and
side effects on the cluster object (annotation writes) become explicit
result values.  Machine maps (`map[string]string`) are embedded as
association lists with first-match lookup, matching the unique-key invariant
of Go maps.
-/

/-- An annotations map (`map[string]string` in Go).  Keys are unique in a Go
map; we embed it as an association list queried by first match. -/
abbrev Annotations := List (String × String)

/-- Map lookup: `v, ok := m[k]` in Go. -/
def lookupAnno (a : Annotations) (k : String) : Option String :=
  match a with
  | [] => none
  | (k₁, v₁) :: rest => if k₁ = k then some v₁ else lookupAnno rest k

/-- Map assignment `m[k] = v` in Go: replaces the value of an existing key,
appends the binding otherwise. -/
def setAnno (a : Annotations) (k v : String) : Annotations :=
  match a with
  | [] => [(k, v)]
  | (k₁, v₁) :: rest => if k₁ = k then (k, v) :: rest else (k₁, v₁) :: setAnno rest k v

/-- `strings.Split` restricted to a one-character separator, structurally on
the character list: the groups of characters between separator occurrences.
Go's `Split` on the empty string yields one empty field, matching the base
case here. -/
def splitOnChar (sep : Char) (cs : List Char) : List (List Char) :=
  match cs with
  | [] => [[]]
  | c :: rest =>
    if c = sep then [] :: splitOnChar sep rest
    else
      match splitOnChar sep rest with
      | [] => [[c]]
      | g :: gs => (c :: g) :: gs

/-- `strings.Split(s, sep)` for a one-character separator, on strings. -/
def splitCommaStr (s : String) : List String :=
  (splitOnChar ',' s.data).map (fun g => { data := g })

/-- Modelled from the spec: `pkg/config/annotations.go` is not in the sources.
Go's `strconv.ParseBool` accepts exactly these string forms. -/
def parseBool? (s : String) : Option Bool :=
  if s = "1" ∨ s = "t" ∨ s = "T" ∨ s = "TRUE" ∨ s = "true" ∨ s = "True" then some true
  else if s = "0" ∨ s = "f" ∨ s = "F" ∨ s = "FALSE" ∨ s = "false" ∨ s = "False" then some false
  else none

/-- Modelled from the spec: the typed accessor `Annotations.BoolValue` of the
missing `pkg/config/annotations.go`; a value that is absent or does not parse
as a boolean falls back to the default (`false` when no default is given). -/
def boolValue (a : Annotations) (k : String) (dflt : Bool := false) : Bool :=
  match lookupAnno a k with
  | none => dflt
  | some v => (parseBool? v).getD dflt

/-- Modelled from the spec: the typed accessor `Annotations.StringValue` of the
missing `pkg/config/annotations.go`; a present annotation wins, an absent one
falls back to the default. -/
def stringValue (a : Annotations) (k : String) (dflt : String) : String :=
  match lookupAnno a k with
  | none => dflt
  | some v => v

/-- Modelled from the spec: the typed accessor `Annotations.IntValue` of the
missing `pkg/config/annotations.go` (`strconv.Atoi` semantics, default on
absent or unparsable values). -/
def intValue (a : Annotations) (k : String) (dflt : Int) : Int :=
  match lookupAnno a k with
  | none => dflt
  | some v => (v.toInt?).getD dflt

/-- Modelled from the spec: the typed accessor `Annotations.StringSliceValue`
of the missing `pkg/config/annotations.go`; a present value is split on commas
(`strings.Split` semantics), an absent one falls back to the default list. -/
def stringSliceValue (a : Annotations) (k : String) (dflt : List String) : List String :=
  match lookupAnno a k with
  | none => dflt
  | some v => splitCommaStr v

/- ### Recognized annotation keys (`pkg/config`, README, test fixtures) -/

def annoEnabledKey : String := "ingress-monitor.bonial.com/enabled"
def annoForceHTTPSKey : String := "ingress-monitor.bonial.com/force-https"
def annoPathOverrideKey : String := "ingress-monitor.bonial.com/path-override"
def nginxForceSSLRedirectKey : String := "nginx.ingress.kubernetes.io/force-ssl-redirect"
def nginxWhitelistSourceRangeKey : String := "nginx.ingress.kubernetes.io/whitelist-source-range"

/- ### The routing resource (networkingv1.Ingress, the fields this core reads) -/

structure IngressTLS where
  hosts : List String
deriving DecidableEq, Repr

structure IngressRule where
  host : String
deriving DecidableEq, Repr

structure IngressSpec where
  tls : List IngressTLS
  rules : List IngressRule
deriving DecidableEq, Repr

structure Ingress where
  /-- the metadata namespace (`namespace` is reserved in Lean) -/
  ns : String
  name : String
  annotations : Annotations
  spec : IngressSpec
deriving DecidableEq, Repr

/- ### pkg/ingress: Validate and BuildMonitorURL -/

/-- `containsWildcard` from `pkg/ingress`: `strings.Contains(hostName, "*")`;
for the one-character needle this is membership of `*` among the characters. -/
def containsWildcard (hostName : String) : Bool :=
  hostName.data.contains '*'

/-- `supportsTLS` from `pkg/ingress`: the ingress has a TLS block whose first
entry has a non-empty first host. -/
def supportsTLS (i : Ingress) : Bool :=
  match i.spec.tls with
  | [] => false
  | t :: _ =>
    match t.hosts with
    | [] => false
    | h :: _ => h.length > 0

/-- The first TLS host when one exists. -/
def firstTLSHost? (i : Ingress) : Option String :=
  match i.spec.tls with
  | [] => none
  | t :: _ => t.hosts.head?

/-- The first rule host (Go indexes `Spec.Rules[0]`, which is only reached on
resources with at least one rule). -/
def firstRuleHost (i : Ingress) : String :=
  match i.spec.rules with
  | [] => ""
  | r :: _ => r.host

inductive ValidateError where
  | invalidTLSHost (host : String)
  | noRules
  | invalidRuleHost (host : String)
deriving DecidableEq, Repr

/-- `Validate` from `pkg/ingress`: reject wildcard first TLS hosts, resources
without rules, and wildcard first rule hosts — in that order. -/
def Validate (i : Ingress) : Except ValidateError Unit :=
  if supportsTLS i ∧ containsWildcard ((firstTLSHost? i).getD "") then
    .error (.invalidTLSHost ((firstTLSHost? i).getD ""))
  else if i.spec.rules = [] then
    .error .noRules
  else if containsWildcard (firstRuleHost i) then
    .error (.invalidRuleHost (firstRuleHost i))
  else
    .ok ()

/-- `forceHTTPS` from `pkg/ingress`: the operator force-https annotation and
the nginx force-ssl-redirect annotation, OR-combined as booleans. -/
def forceHTTPS (i : Ingress) : Bool :=
  boolValue i.annotations annoForceHTTPSKey || boolValue i.annotations nginxForceSSLRedirectKey

/-- `buildHostURL` from `pkg/ingress`: scheme and host selection. -/
def buildHostURL (i : Ingress) : String :=
  if supportsTLS i then "https://" ++ (firstTLSHost? i).getD ""
  else if forceHTTPS i then "https://" ++ firstRuleHost i
  else "http://" ++ firstRuleHost i

/- #### The `net/url` round trip used by BuildMonitorURL

`BuildMonitorURL` feeds the host URL through `net/url.Parse`, assigns the
`Path` field, and serializes with `URL.String`.  The following definitions
embed the fragment of `net/url` this program exercises: absolute `http` or
`https` URLs.  One restriction is documented where it occurs: a literal `%`
in the input is rejected with `escapeUnsupported` instead of being parsed as
a percent-escape (the program's own inputs never contain one; `%` is not a
valid hostname character either way). -/

/-- Control bytes rejected by `net/url.Parse` (C0 controls and DEL). -/
def urlCtl (c : Char) : Bool := c.toNat < 0x20 || c.toNat == 0x7f

/-- The extra characters `shouldEscape` admits in `encodeHost` mode: the
RFC 3986 host sub-delims and the extras Go deliberately leaves unescaped. -/
def hostExtraChars : List Char := "-_.~!$&".data ++ [Char.ofNat 39] ++ "()*+,;=:[]<>\"".data

/-- Characters `parseHost` accepts in a host name: non-ASCII bytes pass
through, ASCII must be alphanumeric or one of the host extras. -/
def hostValidChar (c : Char) : Bool :=
  c.toNat ≥ 0x80 || c.isAlphanum || hostExtraChars.contains c

/-- Characters left unescaped when rendering the host in `URL.String`
(non-ASCII is percent-escaped on output, unlike on input). -/
def hostRenderChar (c : Char) : Bool := c.isAlphanum || hostExtraChars.contains c

/-- The extra characters `shouldEscape` admits in `encodePath` mode. -/
def pathExtraChars : List Char := "-_.~$&+,/:;=@".data

/-- Characters left unescaped when rendering the path in `URL.String`. -/
def pathRenderChar (c : Char) : Bool := c.isAlphanum || pathExtraChars.contains c

/-- The extra characters `shouldEscape` admits in `encodeFragment` mode. -/
def fragExtraChars : List Char := "-_.~$&+,/:;=?@!()*".data

/-- Characters left unescaped when rendering the fragment in `URL.String`. -/
def fragRenderChar (c : Char) : Bool := c.isAlphanum || fragExtraChars.contains c

/-- Characters `parseAuthority` accepts in the userinfo section. -/
def userValidChars : List Char := "-._:~!$&".data ++ [Char.ofNat 39] ++ "()*+,;=@".data

/-- Userinfo validation predicate of `parseAuthority`. -/
def userValidChar (c : Char) : Bool := c.isAlphanum || userValidChars.contains c

/-- The extra characters `shouldEscape` admits in `encodeUserPassword` mode. -/
def userRenderChars : List Char := "-_.~$&+,;=".data

/-- Characters left unescaped when rendering userinfo in `URL.String`. -/
def userRenderChar (c : Char) : Bool := c.isAlphanum || userRenderChars.contains c

/-- The UTF-8 byte sequence of a character, as Go strings store it. -/
def utf8Bytes (c : Char) : List Nat :=
  let n := c.toNat
  if n < 0x80 then [n]
  else if n < 0x800 then [0xC0 + n / 0x40, 0x80 + n % 0x40]
  else if n < 0x10000 then [0xE0 + n / 0x1000, 0x80 + n / 0x40 % 0x40, 0x80 + n % 0x40]
  else [0xF0 + n / 0x40000, 0x80 + n / 0x1000 % 0x40, 0x80 + n / 0x40 % 0x40, 0x80 + n % 0x40]

/-- Uppercase hex digit, as `net/url`'s escaper puts out. -/
def hexDigitChar (n : Nat) : Char :=
  if n < 10 then Char.ofNat (48 + n) else Char.ofNat (55 + n)

/-- Escape one character: allowed characters pass as-is, everything else
becomes `%XX` per UTF-8 byte. -/
def escapeChar (allowed : Char → Bool) (c : Char) : List Char :=
  if allowed c then [c]
  else (utf8Bytes c).flatMap (fun b => ['%', hexDigitChar (b / 16), hexDigitChar (b % 16)])

/-- `url.escape`: percent-escape every character the mode disallows. -/
def escapeWith (allowed : Char → Bool) : List Char → List Char
  | [] => []
  | c :: cs => escapeChar allowed c ++ escapeWith allowed cs

/-- Split at the first occurrence of a separator (`strings.Cut`). -/
def splitFirst (sep : Char) : List Char → Option (List Char × List Char)
  | [] => none
  | c :: rest =>
    if c = sep then some ([], rest)
    else
      match splitFirst sep rest with
      | none => none
      | some (a, b) => some (c :: a, b)

/-- Split at the last occurrence of a separator (`strings.LastIndex`). -/
def splitLast (sep : Char) (cs : List Char) : Option (List Char × List Char) :=
  match splitFirst sep cs.reverse with
  | none => none
  | some (a, b) => some (b.reverse, a.reverse)

/-- What may follow the closing bracket of a `[...]` host: nothing, or a
colon and digits (`validOptionalPort`). -/
def bracketPortOk (cs : List Char) : Bool :=
  match cs with
  | [] => true
  | c :: ds => c = ':' && ds.all Char.isDigit

/-- The error outcomes of the embedded `net/url.Parse`. -/
inductive UrlError where
  | controlChar
  | badScheme
  | escapeUnsupported
  | invalidHostChar (c : Char)
  | invalidPort
  | missingCloseBracket
  | invalidUserinfo
deriving DecidableEq, Repr

/-- The `url.URL` fields this program reads or writes. -/
structure GoURL where
  scheme : String
  user : Option String
  host : String
  path : String
  forceQuery : Bool
  rawQuery : String
  fragment : String
deriving DecidableEq, Repr

/-- `parseHost`: a bracketed host must close its bracket and may carry a
numeric port; any host is then validated character-wise (the error names the
first offending character, as Go's message quotes it).  A `%` never reaches
the character check on Go's side because `unescape` handles it first; the
embedding rejects it at the same stage via `hostValidChar`. -/
def parseHostChars (cs : List Char) : Except UrlError (List Char) :=
  if cs.head? = some '[' then
    match splitLast ']' cs with
    | none => .error .missingCloseBracket
    | some (_, after) =>
      if !bracketPortOk after then .error .invalidPort
      else if cs.all hostValidChar then .ok cs
      else .error (.invalidHostChar ((cs.filter (fun c => !hostValidChar c)).headD ' '))
  else
    let portCheck :=
      match splitLast ':' cs with
      | none => true
      | some (_, after) => after.all Char.isDigit
    if !portCheck then .error .invalidPort
    else if cs.all hostValidChar then .ok cs
    else .error (.invalidHostChar ((cs.filter (fun c => !hostValidChar c)).headD ' '))

/-- `parseAuthority`: userinfo before the last `@`, host after. -/
def parseAuthority (auth : List Char) : Except UrlError (Option String × String) :=
  match splitLast '@' auth with
  | none =>
    match parseHostChars auth with
    | .error e => .error e
    | .ok h => .ok (none, String.mk h)
  | some (uinfo, hostPart) =>
    match parseHostChars hostPart with
    | .error e => .error e
    | .ok h =>
      if uinfo.all userValidChar then .ok (some (String.mk uinfo), String.mk h)
      else .error .invalidUserinfo

/-- The query split of `net/url.Parse`: a sole trailing `?` sets ForceQuery,
otherwise everything after the first `?` is the raw query. -/
def urlParseQuery (rest : List Char) : List Char × List Char × Bool :=
  match rest.reverse with
  | '?' :: front =>
    if front.contains '?' then
      match splitFirst '?' rest with
      | none => (rest, [], false)
      | some (a, b) => (a, b, false)
    else (front.reverse, [], true)
  | _ =>
    match splitFirst '?' rest with
    | none => (rest, [], false)
    | some (a, b) => (a, b, false)

/-- Assemble the URL after the authority/path split: parse the authority and
take the path verbatim (a `%` in path or fragment would be a percent-escape,
outside the embedded fragment). -/
def urlParseAuthPath (scheme : String) (auth path rawQuery : List Char) (forceQuery : Bool)
    (frag : List Char) : Except UrlError GoURL :=
  match parseAuthority auth with
  | .error e => .error e
  | .ok uh =>
    if path.contains '%' then .error .escapeUnsupported
    else if frag.contains '%' then .error .escapeUnsupported
    else
      .ok { scheme := scheme, user := uh.1, host := uh.2
            path := String.mk path, forceQuery := forceQuery
            rawQuery := String.mk rawQuery, fragment := String.mk frag }

/-- After the scheme: query split, then the authority ends at the first `/`
(the slash starts the path). -/
def urlParseRest (scheme : String) (rest frag : List Char) : Except UrlError GoURL :=
  match urlParseQuery rest with
  | (rest2, rawQuery, forceQuery) =>
    match splitFirst '/' rest2 with
    | none => urlParseAuthPath scheme rest2 [] rawQuery forceQuery frag
    | some (a, b) => urlParseAuthPath scheme a ('/' :: b) rawQuery forceQuery frag

/-- `net/url.Parse` after the fragment split: reject control bytes, require
an absolute `http://` or `https://` URL (the only schemes `buildHostURL`
produces; any other input is out of the program's frame and maps to
`badScheme`). -/
def urlParseNoFrag (beforeFrag frag : List Char) : Except UrlError GoURL :=
  if beforeFrag.any urlCtl then .error .controlChar
  else
    match beforeFrag with
    | 'h' :: 't' :: 't' :: 'p' :: 's' :: ':' :: '/' :: '/' :: rest =>
      urlParseRest "https" rest frag
    | 'h' :: 't' :: 't' :: 'p' :: ':' :: '/' :: '/' :: rest =>
      urlParseRest "http" rest frag
    | _ => .error .badScheme

/-- `net/url.Parse`: the fragment is split off at the first `#` first. -/
def urlParse (s : String) : Except UrlError GoURL :=
  match splitFirst '#' s.data with
  | none => urlParseNoFrag s.data []
  | some (a, b) => urlParseNoFrag a b

/-- Render the userinfo section as `URL.String` does. -/
def renderUserinfo (ui : String) : String :=
  match splitFirst ':' ui.data with
  | none => String.mk (escapeWith userRenderChar ui.data)
  | some (usr, pwd) =>
    String.mk (escapeWith userRenderChar usr) ++ ":" ++ String.mk (escapeWith userRenderChar pwd)

/-- The path part of `URL.String`: `*` stays verbatim, everything else is
escaped in path mode, and a non-empty path not starting with `/` gets one
inserted when a host is present. -/
def renderPath (path host : String) : String :=
  match (if path = "*" then ['*'] else escapeWith pathRenderChar path.data) with
  | [] => ""
  | c :: cs => if c = '/' ∨ host = "" then String.mk (c :: cs) else "/" ++ String.mk (c :: cs)

/-- `url.URL.String` for the URLs this program builds: scheme, `://`,
optional userinfo, escaped host, path with slash insertion, query and
fragment parts. -/
def urlString (u : GoURL) : String :=
  let userPart :=
    match u.user with
    | none => ""
    | some ui => renderUserinfo ui ++ "@"
  let queryPart := if u.forceQuery ∨ u.rawQuery ≠ "" then "?" ++ u.rawQuery else ""
  let fragPart :=
    if u.fragment = "" then "" else "#" ++ String.mk (escapeWith fragRenderChar u.fragment.data)
  u.scheme ++ "://" ++ userPart ++ String.mk (escapeWith hostRenderChar u.host.data) ++
    renderPath u.path u.host ++ queryPart ++ fragPart

/-- `BuildMonitorURL` from `pkg/ingress`: parse the host URL, fail on a parse
error, assign the path-override annotation (when present, even empty) to the
`Path` field, and serialize. -/
def BuildMonitorURL (i : Ingress) : Except UrlError String :=
  match urlParse (buildHostURL i) with
  | .error e => .error e
  | .ok u =>
    match lookupAnno i.annotations annoPathOverrideKey with
    | none => .ok (urlString u)
    | some p => .ok (urlString { u with path := p })

/-- `difference` from `pkg/monitor/annotation.go`: elements of `a` not in `b`,
in the order of `a`. -/
def difference (a b : List String) : List String :=
  a.filter (fun el => !b.contains el)

/-- `mergeProviderSourceRanges` from `pkg/monitor/annotation.go`: appends the
provider ranges missing from the whitelist and reports whether anything was
appended. -/
def mergeProviderSourceRanges (sourceRanges providerSourceRanges : List String) :
    List String × Bool :=
  let missing := difference providerSourceRanges sourceRanges
  if missing = [] then (sourceRanges, false)
  else (sourceRanges ++ missing, true)

/- ### pkg/models and pkg/provider: the monitor value and the provider oracle -/

/-- `models.Monitor`: the provider-agnostic monitor value. -/
structure Monitor where
  id : String
  name : String
  url : String
  annotations : Annotations
deriving DecidableEq, Repr

/-- The service error domain: `models.ErrMonitorNotFound` is a distinguished
value that callers compare against, a URL parse failure surfaces through
`buildMonitorModel` as an error of its own, and every other error is
opaque. -/
inductive PErr where
  | monitorNotFound
  | urlParseFailed (e : UrlError)
  | other (msg : String)
deriving DecidableEq, Repr

/-- `provider.Interface` as a record of response functions: each call's
outcome is a function of its argument, which embeds the synchronous
single-call provider conversations the monitor service performs. -/
structure ProviderOracle where
  getByName : String → Except PErr Monitor
  createRes : Monitor → Except PErr Unit
  updateRes : Monitor → Except PErr Unit
  deleteRes : String → Except PErr Unit
  ipRanges : Monitor → Except PErr (List String)

/-- One provider API call, recorded so theorems can speak about which calls a
service operation performs. -/
inductive ProviderCall where
  | getCall (name : String)
  | createCall (m : Monitor)
  | updateCall (m : Monitor)
  | deleteCall (name : String)
  | ipRangesCall (m : Monitor)
deriving DecidableEq, Repr

/-- The monitor service state (`monitor.service`): the provider handle, the
namer, and the options that matter to the embedded operations. -/
structure Service where
  provider : ProviderOracle
  /-- Modelled from the spec: `pkg/monitor/namer.go` is not in the sources;
  the monitor name is derived deterministically from the resource namespace
  and name via a configurable template, so the namer is a function of those
  two strings. -/
  namer : String → String → String
  noDelete : Bool

/-- Modelled from the spec: the rendering of the default name template, which
joins namespace and ingress name with a dash (test fixtures expect
`kube-system-foo` for namespace `kube-system` and name `foo`). -/
def defaultNamer (ns name : String) : String :=
  ns ++ "-" ++ name

/- ### pkg/monitor/service.go -/

/-- `buildMonitorModel` from `pkg/monitor/service.go`: name from the namer,
URL from the URL builder — whose error propagates — and annotations passed
through; the id starts empty (Go zero value). -/
def buildMonitorModel (s : Service) (i : Ingress) : Except PErr Monitor :=
  match BuildMonitorURL i with
  | .error e => .error (.urlParseFailed e)
  | .ok url =>
    .ok { id := ""
          name := s.namer i.ns i.name
          url := url
          annotations := i.annotations }

/-- `createMonitor` from `pkg/monitor/service.go`. -/
def createMonitor (s : Service) (m : Monitor) : Except PErr Unit × List ProviderCall :=
  (s.provider.createRes m, [.createCall m])

/-- `updateMonitor` from `pkg/monitor/service.go`: the provider-assigned id of
the monitor found by name is copied onto the freshly built monitor before the
update call. -/
def updateMonitor (s : Service) (oldMonitor newMonitor : Monitor) :
    Except PErr Unit × List ProviderCall :=
  let newMonitor := { newMonitor with id := oldMonitor.id }
  (s.provider.updateRes newMonitor, [.updateCall newMonitor])

/-- `EnsureMonitor` from `pkg/monitor/service.go`: validation failures are
swallowed (no provider call), a model-build failure propagates its error
before any provider call, a not-found lookup takes the create path, a found
monitor takes the update path, any other lookup error propagates. -/
def EnsureMonitor (s : Service) (i : Ingress) : Except PErr Unit × List ProviderCall :=
  match Validate i with
  | .error _ => (.ok (), [])
  | .ok _ =>
    match buildMonitorModel s i with
    | .error e => (.error e, [])
    | .ok newMonitor =>
      match s.provider.getByName newMonitor.name with
      | .error .monitorNotFound =>
        let r := createMonitor s newMonitor
        (r.1, .getCall newMonitor.name :: r.2)
      | .error e => (.error e, [.getCall newMonitor.name])
      | .ok oldMonitor =>
        let r := updateMonitor s oldMonitor newMonitor
        (r.1, .getCall newMonitor.name :: r.2)

/-- `deleteMonitor` (lower-case) from `pkg/monitor/service.go`: a not-found
delete is success, every other error propagates. -/
def deleteMonitorByName (s : Service) (name : String) :
    Except PErr Unit × List ProviderCall :=
  match s.provider.deleteRes name with
  | .error .monitorNotFound => (.ok (), [.deleteCall name])
  | .error e => (.error e, [.deleteCall name])
  | .ok _ => (.ok (), [.deleteCall name])

/-- `DeleteMonitor` from `pkg/monitor/service.go`: names the monitor from
metadata alone, honours the no-delete mode, and otherwise delegates to the
provider delete. -/
def DeleteMonitor (s : Service) (i : Ingress) : Except PErr Unit × List ProviderCall :=
  let name := s.namer i.ns i.name
  if s.noDelete then (.ok (), [])
  else deleteMonitorByName s name

/-- `GetProviderIPSourceRanges` from `pkg/monitor/service.go`: validation
failures yield an empty range list with no error and no provider call; a
model-build failure propagates its error without a provider call. -/
def GetProviderIPSourceRanges (s : Service) (i : Ingress) :
    Except PErr (List String) × List ProviderCall :=
  match Validate i with
  | .error _ => (.ok [], [])
  | .ok _ =>
    match buildMonitorModel s i with
    | .error e => (.error e, [])
    | .ok m => (s.provider.ipRanges m, [.ipRangesCall m])

/- ### pkg/monitor/annotation.go: AnnotateIngress -/

/-- `shouldPatchSourceRangeWhitelist` from `pkg/monitor/annotation.go`: the
monitor must be enabled and the whitelist annotation present and non-empty.
A missing map key reads as the empty string in Go. -/
def shouldPatchSourceRangeWhitelist (i : Ingress) : Bool :=
  boolValue i.annotations annoEnabledKey &&
    ((lookupAnno i.annotations nginxWhitelistSourceRangeKey).getD "").length > 0

/-- `AnnotateIngress` from `pkg/monitor/annotation.go`.  The Go code mutates
the ingress in place on the patch path only; the embedding returns the
resulting ingress next to the (updated, error) outcome. -/
def AnnotateIngress (s : Service) (i : Ingress) : Except PErr Bool × Ingress :=
  if !shouldPatchSourceRangeWhitelist i then (.ok false, i)
  else
    match (GetProviderIPSourceRanges s i).1 with
    | .error e => (.error e, i)
    | .ok providerSourceRanges =>
      if providerSourceRanges = [] then (.ok false, i)
      else
        let sourceRanges :=
          splitCommaStr ((lookupAnno i.annotations nginxWhitelistSourceRangeKey).getD "")
        let merged := mergeProviderSourceRanges sourceRanges providerSourceRanges
        if !merged.2 then (.ok false, i)
        else
          let joined := String.intercalate "," merged.1
          let patched := setAnno i.annotations nginxWhitelistSourceRangeKey joined
          (.ok true, { i with annotations := patched })

/- ### pkg/provider/site24x7: builder, defaults and finalizers -/

/-- Site24x7 annotation keys (`pkg/config/annotations.go`; the actions key is
pinned by a test fixture, the other keys follow the same naming scheme). -/
def s24CheckFrequencyKey : String := "site24x7.ingress-monitor.bonial.com/check-frequency"

def s24HTTPMethodKey : String := "site24x7.ingress-monitor.bonial.com/http-method"

def s24AuthUserKey : String := "site24x7.ingress-monitor.bonial.com/auth-user"

def s24AuthPassKey : String := "site24x7.ingress-monitor.bonial.com/auth-pass"

def s24MatchCaseKey : String := "site24x7.ingress-monitor.bonial.com/match-case"

def s24UserAgentKey : String := "site24x7.ingress-monitor.bonial.com/user-agent"

def s24TimeoutKey : String := "site24x7.ingress-monitor.bonial.com/timeout"

def s24UseNameServerKey : String := "site24x7.ingress-monitor.bonial.com/use-name-server"

def s24UserGroupIDsKey : String := "site24x7.ingress-monitor.bonial.com/user-group-ids"

def s24MonitorGroupIDsKey : String := "site24x7.ingress-monitor.bonial.com/monitor-group-ids"

def s24LocationProfileIDKey : String := "site24x7.ingress-monitor.bonial.com/location-profile-id"

def s24NotificationProfileIDKey : String := "site24x7.ingress-monitor.bonial.com/notification-profile-id"

def s24ThresholdProfileIDKey : String := "site24x7.ingress-monitor.bonial.com/threshold-profile-id"

def s24CustomHeadersKey : String := "site24x7.ingress-monitor.bonial.com/custom-headers"

def s24ActionsKey : String := "site24x7.ingress-monitor.bonial.com/actions"

/-- `site24x7api.Header`: one custom HTTP header. -/
structure Header where
  name : String
  value : String
deriving DecidableEq, Repr

/-- `site24x7api.ActionRef`: one alert-action reference. -/
structure ActionRef where
  actionID : String
  alertType : Int
deriving DecidableEq, Repr

/-- The Site24x7 monitor representation (`site24x7api.Monitor`, the fields the
builder sets).  The two JSON-decoded slice fields are `Option`-typed because
Go distinguishes a nil slice (triggering the defaults fallback) from a
present one. -/
structure Site24x7Monitor where
  type : String
  monitorID : String
  displayName : String
  website : String
  checkFrequency : String
  httpMethod : String
  authUser : String
  authPass : String
  matchCase : Bool
  userAgent : String
  timeout : Int
  useNameServer : Bool
  userGroupIDs : List String
  monitorGroups : List String
  locationProfileID : String
  notificationProfileID : String
  thresholdProfileID : String
  customHeaders : Option (List Header)
  actionIDs : Option (List ActionRef)
deriving DecidableEq, Repr

/-- `config.Site24x7MonitorDefaults` from `pkg/config/providers.go`. -/
structure Site24x7MonitorDefaults where
  actions : Option (List ActionRef)
  authPass : String
  authUser : String
  autoLocationProfile : Bool
  autoNotificationProfile : Bool
  autoThresholdProfile : Bool
  autoMonitorGroup : Bool
  autoUserGroup : Bool
  checkFrequency : String
  customHeaders : Option (List Header)
  httpMethod : String
  locationProfileID : String
  matchCase : Bool
  monitorGroupIDs : List String
  notificationProfileID : String
  thresholdProfileID : String
  timeout : Int
  useNameServer : Bool
  userAgent : String
  userGroupIDs : List String

/-- Modelled from the spec: the Site24x7 client's profile/group listing calls
as consumed by the missing finalizer bodies.  Each field is the identifier
list the corresponding List API call returns, in listing order. -/
structure S24Client where
  locationProfiles : List String
  notificationProfiles : List String
  thresholdProfiles : List String
  monitorGroups : List String
  userGroups : List String

/-- The builder error domain: `InvalidAnnotationJSON(key, rawValue, cause)`
and `NoProfilesConfigured(kind)` from the spec error taxonomy (the JSON
library cause is opaque and omitted). -/
inductive BuildError where
  | invalidAnnoJSON (key raw : String)
  | noProfilesConfigured (kind : String)
deriving DecidableEq, Repr

/-- `builder` from the site24x7 package.  The two decoder fields embed
`encoding/json` unmarshalling of the two JSON-typed annotations: `none` is a
parse failure, `some none` a decode to a nil slice (JSON null), `some (some
l)` a decode to slice `l`. -/
structure Builder where
  client : S24Client
  defaults : Site24x7MonitorDefaults
  decodeHeaders : String → Option (Option (List Header))
  decodeActions : String → Option (Option (List ActionRef))

/-- Modelled from the spec: `Annotations.ParseJSON` of the missing
`pkg/config/annotations.go`.  An absent annotation leaves the target slice
nil, a malformed present value is a hard error naming key and raw value. -/
def parseJSONField {α : Type} (a : Annotations) (k : String)
    (dec : String → Option (Option (List α))) : Except BuildError (Option (List α)) :=
  match lookupAnno a k with
  | none => .ok none
  | some raw =>
    match dec raw with
    | none => .error (.invalidAnnoJSON k raw)
    | some v => .ok v

/-- Modelled from the spec: `finalizeLocationProfile` (body not in the
sources).  When location-profile auto-discovery is enabled and the field is
still unset, the first listed profile is selected; zero candidates is a
`NoProfilesConfigured` error.  A field already set is never overwritten. -/
def finalizeLocationProfile (b : Builder) (m : Site24x7Monitor) :
    Except BuildError Site24x7Monitor :=
  if b.defaults.autoLocationProfile && m.locationProfileID == "" then
    match b.client.locationProfiles with
    | [] => .error (.noProfilesConfigured "location profiles")
    | p :: _ => .ok { m with locationProfileID := p }
  else .ok m

/-- Modelled from the spec: `finalizeNotificationProfile`. -/
def finalizeNotificationProfile (b : Builder) (m : Site24x7Monitor) :
    Except BuildError Site24x7Monitor :=
  if b.defaults.autoNotificationProfile && m.notificationProfileID == "" then
    match b.client.notificationProfiles with
    | [] => .error (.noProfilesConfigured "notification profiles")
    | p :: _ => .ok { m with notificationProfileID := p }
  else .ok m

/-- Modelled from the spec: `finalizeThresholdProfile`. -/
def finalizeThresholdProfile (b : Builder) (m : Site24x7Monitor) :
    Except BuildError Site24x7Monitor :=
  if b.defaults.autoThresholdProfile && m.thresholdProfileID == "" then
    match b.client.thresholdProfiles with
    | [] => .error (.noProfilesConfigured "threshold profiles")
    | p :: _ => .ok { m with thresholdProfileID := p }
  else .ok m

/-- Modelled from the spec: `finalizeMonitorGroup`; the field is a group list
and counts as unset when empty. -/
def finalizeMonitorGroup (b : Builder) (m : Site24x7Monitor) :
    Except BuildError Site24x7Monitor :=
  if b.defaults.autoMonitorGroup && m.monitorGroups == [] then
    match b.client.monitorGroups with
    | [] => .error (.noProfilesConfigured "monitor groups")
    | g :: _ => .ok { m with monitorGroups := [g] }
  else .ok m

/-- Modelled from the spec: `finalizeUserGroup`. -/
def finalizeUserGroup (b : Builder) (m : Site24x7Monitor) :
    Except BuildError Site24x7Monitor :=
  if b.defaults.autoUserGroup && m.userGroupIDs == [] then
    match b.client.userGroups with
    | [] => .error (.noProfilesConfigured "user groups")
    | g :: _ => .ok { m with userGroupIDs := [g] }
  else .ok m

/-- The finalizer loop body of `finalizeMonitor`: run finalizers in order,
aborting on the first error. -/
def runFinalizers (fs : List (Site24x7Monitor → Except BuildError Site24x7Monitor))
    (m : Site24x7Monitor) : Except BuildError Site24x7Monitor :=
  match fs with
  | [] => .ok m
  | f :: rest =>
    match f m with
    | .error e => .error e
    | .ok m₁ => runFinalizers rest m₁

/-- The builder's finalizer chain, in the order `newBuilder` registers it:
location profile, notification profile, threshold profile, monitor group,
user group. -/
def builderFinalizers (b : Builder) :
    List (Site24x7Monitor → Except BuildError Site24x7Monitor) :=
  [finalizeLocationProfile b, finalizeNotificationProfile b, finalizeThresholdProfile b,
   finalizeMonitorGroup b, finalizeUserGroup b]

/-- `finalizeMonitor` from the site24x7 builder. -/
def finalizeMonitor (b : Builder) (m : Site24x7Monitor) :
    Except BuildError Site24x7Monitor :=
  runFinalizers (builderFinalizers b) m

/-- The field assignments of `FromModel` before the JSON fields: each field is
the annotation override when present, the configured default otherwise. -/
def directResolve (b : Builder) (model : Monitor) : Site24x7Monitor :=
  let anno := model.annotations
  let d := b.defaults
  { type := "URL"
    monitorID := model.id
    displayName := model.name
    website := model.url
    checkFrequency := stringValue anno s24CheckFrequencyKey d.checkFrequency
    httpMethod := stringValue anno s24HTTPMethodKey d.httpMethod
    authUser := stringValue anno s24AuthUserKey d.authUser
    authPass := stringValue anno s24AuthPassKey d.authPass
    matchCase := boolValue anno s24MatchCaseKey d.matchCase
    userAgent := stringValue anno s24UserAgentKey d.userAgent
    timeout := intValue anno s24TimeoutKey d.timeout
    useNameServer := boolValue anno s24UseNameServerKey d.useNameServer
    userGroupIDs := stringSliceValue anno s24UserGroupIDsKey d.userGroupIDs
    monitorGroups := stringSliceValue anno s24MonitorGroupIDsKey d.monitorGroupIDs
    locationProfileID := stringValue anno s24LocationProfileIDKey d.locationProfileID
    notificationProfileID := stringValue anno s24NotificationProfileIDKey d.notificationProfileID
    thresholdProfileID := stringValue anno s24ThresholdProfileIDKey d.thresholdProfileID
    customHeaders := none
    actionIDs := none }

/-- `FromModel` from the site24x7 builder: direct field resolution, the two
JSON-typed annotations (headers first, as in the source; a nil decode falls
back to the configured default list), then the finalizer chain. -/
def FromModel (b : Builder) (model : Monitor) : Except BuildError Site24x7Monitor :=
  match parseJSONField model.annotations s24CustomHeadersKey b.decodeHeaders with
  | .error e => .error e
  | .ok ch =>
    match parseJSONField model.annotations s24ActionsKey b.decodeActions with
    | .error e => .error e
    | .ok acts =>
      let m := directResolve b model
      let m := { m with customHeaders := if ch.isNone then b.defaults.customHeaders else ch }
      let m := { m with actionIDs := if acts.isNone then b.defaults.actions else acts }
      finalizeMonitor b m

/- ### General helper lemmas -/

theorem splitOnChar_ne_nil (sep : Char) (cs : List Char) : splitOnChar sep cs ≠ [] := by
  induction cs with
  | nil => simp [splitOnChar]
  | cons c rest ih =>
    simp only [splitOnChar]
    split
    · simp
    · cases h : splitOnChar sep rest with
      | nil => simp
      | cons g gs => simp

/-- `strings.Split` never returns an empty list. -/
theorem splitCommaStr_ne_nil (s : String) : splitCommaStr s ≠ [] := by
  unfold splitCommaStr
  intro h
  exact splitOnChar_ne_nil ',' s.data (List.map_eq_nil_iff.mp h)

/-- The source `difference` is a filter by non-membership. -/
theorem difference_eq_filter (a b : List String) :
    difference a b = a.filter (fun r => decide (r ∉ b)) := by
  unfold difference
  apply List.filter_congr
  intro x _
  simp

/- #### Lemmas about the embedded net/url round trip on plain host names -/

/-- C1: merging provider ranges P into whitelist W keeps W as an unchanged
prefix, appends exactly the elements of P absent from W in P's order, reports
updated exactly when something was appended, and is idempotent: merging P
into the merged result changes nothing and reports updated = false. -/
theorem mergeProviderSourceRanges_correct (W P : List String) :
    (mergeProviderSourceRanges W P).1 = W ++ P.filter (fun r => decide (r ∉ W)) ∧
    ((mergeProviderSourceRanges W P).2 = true ↔ P.filter (fun r => decide (r ∉ W)) ≠ []) ∧
    mergeProviderSourceRanges (mergeProviderSourceRanges W P).1 P =
      ((mergeProviderSourceRanges W P).1, false) := by
  have hd := difference_eq_filter P W
  by_cases h : difference P W = []
  · have hfilter : P.filter (fun r => decide (r ∉ W)) = [] := by rw [← hd]; exact h
    have hm : mergeProviderSourceRanges W P = (W, false) := by
      unfold mergeProviderSourceRanges
      simp [h]
    refine ⟨?_, ?_, ?_⟩
    · rw [hm, hfilter]; simp
    · rw [hm, hfilter]; simp
    · rw [hm]; simpa using hm
  · have hm : mergeProviderSourceRanges W P = (W ++ difference P W, true) := by
      unfold mergeProviderSourceRanges
      simp [h]
    have hsecond : difference P (W ++ difference P W) = [] := by
      rw [difference_eq_filter]
      rw [List.filter_eq_nil_iff]
      intro r hr
      have hmem : r ∈ W ++ difference P W := by
        by_cases hrW : r ∈ W
        · exact List.mem_append_left _ hrW
        · refine List.mem_append_right _ ?_
          rw [hd]
          simp [List.mem_filter, hr, hrW]
      simp [hmem]
    refine ⟨?_, ?_, ?_⟩
    · rw [hm, ← hd]
    · rw [hm, ← hd]
      simpa using h
    · rw [hm]
      unfold mergeProviderSourceRanges
      simp [hsecond]

/-- `Validate` as a function of the only data it consults: the first TLS host
(when any) and the first rule host (when any). -/
def validateCore (tlsHost? : Option String) (ruleHost? : Option String) :
    Except ValidateError Unit :=
  let th := tlsHost?.getD ""
  if th ≠ "" ∧ containsWildcard th then .error (.invalidTLSHost th)
  else
    match ruleHost? with
    | none => .error .noRules
    | some rh => if containsWildcard rh then .error (.invalidRuleHost rh) else .ok ()

theorem validate_eq_core (i : Ingress) :
    Validate i = validateCore (firstTLSHost? i) (i.spec.rules.head?.map IngressRule.host) := by
  obtain ⟨ns, nm, an, tls, rules⟩ := i
  have hsup : ∀ h : String, (0 < h.length) ↔ h ≠ "" := by
    intro h
    constructor
    · intro hp hcon
      subst hcon
      simp at hp
    · intro hne
      rcases Nat.eq_zero_or_pos h.length with h0 | hp
      · exact absurd (String.ext (List.length_eq_zero.mp (by rw [String.length_data]; exact h0))) hne
      · exact hp
  cases tls with
  | nil =>
    cases rules with
    | nil => simp [Validate, validateCore, supportsTLS, firstTLSHost?, firstRuleHost]
    | cons r rs => simp [Validate, validateCore, supportsTLS, firstTLSHost?, firstRuleHost]
  | cons t ts =>
    obtain ⟨hosts⟩ := t
    cases hosts with
    | nil =>
      cases rules with
      | nil => simp [Validate, validateCore, supportsTLS, firstTLSHost?, firstRuleHost]
      | cons r rs => simp [Validate, validateCore, supportsTLS, firstTLSHost?, firstRuleHost]
    | cons h hs =>
      by_cases hempty : h = ""
      · subst hempty
        cases rules with
        | nil => simp [Validate, validateCore, supportsTLS, firstTLSHost?, firstRuleHost]
        | cons r rs => simp [Validate, validateCore, supportsTLS, firstTLSHost?, firstRuleHost]
      · have hlen : 0 < h.length := (hsup h).mpr hempty
        cases rules with
        | nil =>
          simp [Validate, validateCore, supportsTLS, firstTLSHost?, firstRuleHost, hlen, hempty]
        | cons r rs =>
          simp [Validate, validateCore, supportsTLS, firstTLSHost?, firstRuleHost, hlen, hempty]

/-- C4: validation applies exactly three checks in order with the first
failure winning — wildcard in a non-empty first TLS host, no rules, wildcard
in the first rule host — and consults only the first TLS host and the first
rule host (so two resources agreeing on those validate identically; the
embedding is a pure function of the resource, so there are no side effects). -/
theorem validate_checks_in_order (i : Ingress) :
    (∀ h, firstTLSHost? i = some h → h ≠ "" → containsWildcard h = true →
        Validate i = .error (.invalidTLSHost h)) ∧
    (containsWildcard ((firstTLSHost? i).getD "") = false → i.spec.rules = [] →
        Validate i = .error .noRules) ∧
    (∀ r rs, containsWildcard ((firstTLSHost? i).getD "") = false →
        i.spec.rules = r :: rs → containsWildcard r.host = true →
        Validate i = .error (.invalidRuleHost r.host)) ∧
    (∀ r rs, containsWildcard ((firstTLSHost? i).getD "") = false →
        i.spec.rules = r :: rs → containsWildcard r.host = false →
        Validate i = .ok ()) ∧
    (∀ j : Ingress, firstTLSHost? i = firstTLSHost? j →
        i.spec.rules.head?.map IngressRule.host = j.spec.rules.head?.map IngressRule.host →
        Validate i = Validate j) := by
  refine ⟨?_, ?_, ?_, ?_, ?_⟩
  · intro h hth hne hwild
    rw [validate_eq_core, hth]
    simp [validateCore, hne, hwild]
  · intro hnw hrules
    rw [validate_eq_core, hrules]
    simp only [List.head?_nil, Option.map_none']
    simp only [validateCore]
    rw [if_neg]
    intro hcon
    rw [hnw] at hcon
    exact Bool.false_ne_true hcon.2
  · intro r rs hnw hrules hwild
    rw [validate_eq_core, hrules]
    simp only [List.head?_cons, Option.map_some']
    simp only [validateCore]
    rw [if_neg]
    · simp [hwild]
    · intro hcon
      rw [hnw] at hcon
      exact Bool.false_ne_true hcon.2
  · intro r rs hnw hrules hnowild
    rw [validate_eq_core, hrules]
    simp only [List.head?_cons, Option.map_some']
    simp only [validateCore]
    rw [if_neg]
    · simp [hnowild]
    · intro hcon
      rw [hnw] at hcon
      exact Bool.false_ne_true hcon.2
  · intro j h1 h2
    rw [validate_eq_core, validate_eq_core, h1, h2]

/-- C4 witness: a resource with wildcard TLS host `*.bar.baz` fails naming
that host, a rule-less resource fails with the no-rules error, and a valid
resource passes. -/
theorem validate_checks_in_order_witness :
    Validate { ns := "kube-system", name := "foo", annotations := [],
               spec := { tls := [{ hosts := ["*.bar.baz"] }],
                         rules := [{ host := "foo.bar.baz" }] } } =
      .error (.invalidTLSHost "*.bar.baz") ∧
    Validate { ns := "kube-system", name := "foo", annotations := [],
               spec := { tls := [], rules := [] } } = .error .noRules ∧
    Validate { ns := "kube-system", name := "foo", annotations := [],
               spec := { tls := [], rules := [{ host := "foo.bar.baz" }] } } = .ok () := by
  refine ⟨?_, ?_, ?_⟩
  · exact (validate_checks_in_order _).1 "*.bar.baz" rfl (by decide) (by decide)
  · exact (validate_checks_in_order _).2.1 (by decide) rfl
  · exact (validate_checks_in_order _).2.2.2.1 { host := "foo.bar.baz" } [] (by decide) rfl
      (by decide)

/-- A plain resource: one rule, no TLS, no annotations. -/
def plainExampleIngress : Ingress :=
  { ns := "", name := "", annotations := []
    spec := { tls := [], rules := [{ host := "foo.bar.baz" }] } }

/-- C2: validation failures are swallowed — `EnsureMonitor` succeeds with no
provider call and `GetProviderIPSourceRanges` returns an empty result with no
error and no provider call; a model-build failure on a validated resource
propagates its error from both operations without any provider call; after a
successful build, a not-found lookup takes the create path, a found monitor
takes the update path, and any other lookup error propagates unmodified with
neither create nor update attempted. -/
theorem ensureMonitor_error_paths (s : Service) (i : Ingress) :
    (∀ e, Validate i = .error e →
        EnsureMonitor s i = (.ok (), []) ∧ GetProviderIPSourceRanges s i = (.ok [], [])) ∧
    (∀ e, Validate i = .ok () → buildMonitorModel s i = .error e →
        EnsureMonitor s i = (.error e, []) ∧ GetProviderIPSourceRanges s i = (.error e, [])) ∧
    (∀ M, Validate i = .ok () → buildMonitorModel s i = .ok M →
        s.provider.getByName M.name = .error .monitorNotFound →
        EnsureMonitor s i = (s.provider.createRes M, [.getCall M.name, .createCall M])) ∧
    (∀ M old, Validate i = .ok () → buildMonitorModel s i = .ok M →
        s.provider.getByName M.name = .ok old →
        EnsureMonitor s i =
          (s.provider.updateRes { M with id := old.id },
           [.getCall M.name, .updateCall { M with id := old.id }])) ∧
    (∀ M e, Validate i = .ok () → buildMonitorModel s i = .ok M →
        s.provider.getByName M.name = .error e → e ≠ .monitorNotFound →
        EnsureMonitor s i = (.error e, [.getCall M.name])) ∧
    (∀ M, Validate i = .ok () → buildMonitorModel s i = .ok M →
        GetProviderIPSourceRanges s i =
          (s.provider.ipRanges M, [.ipRangesCall M])) := by
  refine ⟨?_, ?_, ?_, ?_, ?_, ?_⟩
  · intro e he
    constructor
    · simp [EnsureMonitor, he]
    · simp [GetProviderIPSourceRanges, he]
  · intro e hv hb
    constructor
    · simp [EnsureMonitor, hv, hb]
    · simp [GetProviderIPSourceRanges, hv, hb]
  · intro M hv hb hg
    simp [EnsureMonitor, hv, hb, hg, createMonitor]
  · intro M old hv hb hg
    simp [EnsureMonitor, hv, hb, hg, updateMonitor]
  · intro M e hv hb hg hne
    cases e with
    | monitorNotFound => exact absurd rfl hne
    | urlParseFailed u => simp [EnsureMonitor, hv, hb, hg]
    | other msg => simp [EnsureMonitor, hv, hb, hg]
  · intro M hv hb
    simp [GetProviderIPSourceRanges, hv, hb]

/-- A provider oracle whose lookup reports the distinguished not-found error
and whose mutations succeed. -/
def wProviderNotFound : ProviderOracle :=
  { getByName := fun _ => .error .monitorNotFound
    createRes := fun _ => .ok ()
    updateRes := fun _ => .ok ()
    deleteRes := fun _ => .error .monitorNotFound
    ipRanges := fun _ => .ok ["127.0.0.1/32"] }

/-- A provider oracle that finds an existing monitor with id `123`. -/
def wProviderFound : ProviderOracle :=
  { getByName := fun n => .ok { id := "123", name := n, url := "http://bar.baz", annotations := [] }
    createRes := fun _ => .ok ()
    updateRes := fun _ => .ok ()
    deleteRes := fun _ => .ok ()
    ipRanges := fun _ => .ok [] }

def wSvcNotFound : Service :=
  { provider := wProviderNotFound, namer := defaultNamer, noDelete := false }

def wSvcFound : Service :=
  { provider := wProviderFound, namer := defaultNamer, noDelete := false }

/-- A resource with no rules at all (fails validation). -/
def noRulesIngress : Ingress :=
  { ns := "kube-system", name := "foo", annotations := [], spec := { tls := [], rules := [] } }

/-- A validated resource whose host `{invalidhost` fails the URL parse, as in
the repository's own test fixture. -/
def invalidHostIngress : Ingress :=
  { ns := "kube-system", name := "foo", annotations := []
    spec := { tls := [], rules := [{ host := "\x7binvalidhost" }] } }

/-- The monitor model a default-named service builds for the plain example
resource. -/
def wPlainMonitor : Monitor :=
  { id := "", name := "-", url := "http://foo.bar.baz", annotations := [] }

/-- C2 witness: a not-found lookup leads to a create call, a resource without
rules is skipped without error or provider call, and the invalid-host
resource makes both operations fail with the URL parse error naming `{` and
no provider call. -/
theorem ensureMonitor_error_paths_witness :
    EnsureMonitor wSvcNotFound plainExampleIngress =
      (.ok (), [.getCall "-", .createCall wPlainMonitor]) ∧
    EnsureMonitor wSvcNotFound noRulesIngress = (.ok (), []) ∧
    GetProviderIPSourceRanges wSvcNotFound noRulesIngress = (.ok [], []) ∧
    EnsureMonitor wSvcNotFound invalidHostIngress =
      (.error (.urlParseFailed (.invalidHostChar (Char.ofNat 123))), []) ∧
    GetProviderIPSourceRanges wSvcNotFound invalidHostIngress =
      (.error (.urlParseFailed (.invalidHostChar (Char.ofNat 123))), []) := by
  refine ⟨?_, ?_, ?_, ?_, ?_⟩
  · exact ((ensureMonitor_error_paths wSvcNotFound plainExampleIngress).2.2.1 wPlainMonitor
      rfl rfl rfl).trans rfl
  · exact ((ensureMonitor_error_paths wSvcNotFound noRulesIngress).1 .noRules rfl).1
  · exact ((ensureMonitor_error_paths wSvcNotFound noRulesIngress).1 .noRules rfl).2
  · exact ((ensureMonitor_error_paths wSvcNotFound invalidHostIngress).2.1
      (.urlParseFailed (.invalidHostChar (Char.ofNat 123))) rfl rfl).1
  · exact ((ensureMonitor_error_paths wSvcNotFound invalidHostIngress).2.1
      (.urlParseFailed (.invalidHostChar (Char.ofNat 123))) rfl rfl).2

/-- C3: on the update path — the resource validated, the monitor model was
built, and the lookup by name found an existing monitor — every monitor
handed to the provider update call carries the id of the found monitor, and
the call trace is exactly the lookup followed by that update. -/
theorem ensureMonitor_preserves_id (s : Service) (i : Ingress) (M old : Monitor)
    (hv : Validate i = .ok ()) (hb : buildMonitorModel s i = .ok M)
    (hg : s.provider.getByName M.name = .ok old) :
    (∀ m, ProviderCall.updateCall m ∈ (EnsureMonitor s i).2 → m.id = old.id) ∧
    (EnsureMonitor s i).2 = [.getCall M.name, .updateCall { M with id := old.id }] := by
  have htrace : (EnsureMonitor s i).2 =
      [.getCall M.name, .updateCall { M with id := old.id }] := by
    simp [EnsureMonitor, hv, hb, hg, updateMonitor]
  refine ⟨?_, htrace⟩
  intro m hm
  rw [htrace] at hm
  simp only [List.mem_cons, List.not_mem_nil, or_false] at hm
  rcases hm with hm | hm
  · exact absurd hm (by simp)
  · injection hm with h
    rw [h]

/-- C3 witness: with a provider that finds monitor id `123`, the update call
of the ensure operation carries id `123`. -/
theorem ensureMonitor_preserves_id_witness :
    ProviderCall.updateCall { wPlainMonitor with id := "123" } ∈
      (EnsureMonitor wSvcFound plainExampleIngress).2 ∧
    ({ wPlainMonitor with id := "123" } : Monitor).id = "123" := by
  have h := ensureMonitor_preserves_id wSvcFound plainExampleIngress wPlainMonitor
    { id := "123", name := "-", url := "http://bar.baz", annotations := [] } rfl rfl rfl
  constructor
  · rw [h.2]
    exact List.mem_cons_of_mem _ (List.mem_singleton.mpr rfl)
  · exact h.1 _ (by rw [h.2]; exact List.mem_cons_of_mem _ (List.mem_singleton.mpr rfl))

/-- C6: `DeleteMonitor` depends only on the namespace and name metadata (so
it succeeds on rule-less resources and never validates); the no-delete mode
is a provider-free no-op success; otherwise the provider delete runs, its
not-found error counts as success, and every other error propagates. -/
theorem deleteMonitor_behaviour :
    (∀ (s : Service) (i j : Ingress), i.ns = j.ns → i.name = j.name →
        DeleteMonitor s i = DeleteMonitor s j) ∧
    (∀ (s : Service) (i : Ingress), s.noDelete = true → DeleteMonitor s i = (.ok (), [])) ∧
    (∀ (s : Service) (i : Ingress), s.noDelete = false →
        s.provider.deleteRes (s.namer i.ns i.name) = .error .monitorNotFound →
        DeleteMonitor s i = (.ok (), [.deleteCall (s.namer i.ns i.name)])) ∧
    (∀ (s : Service) (i : Ingress) (msg : String), s.noDelete = false →
        s.provider.deleteRes (s.namer i.ns i.name) = .error (.other msg) →
        DeleteMonitor s i = (.error (.other msg), [.deleteCall (s.namer i.ns i.name)])) ∧
    (∀ (s : Service) (i : Ingress), s.noDelete = false →
        s.provider.deleteRes (s.namer i.ns i.name) = .ok () →
        DeleteMonitor s i = (.ok (), [.deleteCall (s.namer i.ns i.name)])) := by
  refine ⟨?_, ?_, ?_, ?_, ?_⟩
  · intro s i j hns hname
    unfold DeleteMonitor
    rw [hns, hname]
  · intro s i hnd
    simp [DeleteMonitor, hnd]
  · intro s i hnd hdel
    simp [DeleteMonitor, hnd, deleteMonitorByName, hdel]
  · intro s i msg hnd hdel
    simp [DeleteMonitor, hnd, deleteMonitorByName, hdel]
  · intro s i hnd hdel
    simp [DeleteMonitor, hnd, deleteMonitorByName, hdel]

/-- C6 witness: deleting via a provider that reports not-found succeeds, also
for a rule-less resource, and the no-delete mode performs no provider call. -/
theorem deleteMonitor_behaviour_witness :
    DeleteMonitor wSvcNotFound noRulesIngress = (.ok (), [.deleteCall "kube-system-foo"]) ∧
    DeleteMonitor { wSvcFound with noDelete := true } noRulesIngress = (.ok (), []) ∧
    DeleteMonitor wSvcFound noRulesIngress = (.ok (), [.deleteCall "kube-system-foo"]) := by
  refine ⟨?_, ?_, ?_⟩
  · exact deleteMonitor_behaviour.2.2.1 wSvcNotFound noRulesIngress rfl rfl
  · exact deleteMonitor_behaviour.2.1 _ noRulesIngress rfl
  · exact deleteMonitor_behaviour.2.2.2.2 wSvcFound noRulesIngress rfl rfl

/-- Setting one key of an annotations map leaves lookups of every other key
unchanged. -/
theorem lookupAnno_setAnno_ne (a : Annotations) (k v k₁ : String) (h : k₁ ≠ k) :
    lookupAnno (setAnno a k v) k₁ = lookupAnno a k₁ := by
  induction a with
  | nil => simp [setAnno, lookupAnno, Ne.symm h]
  | cons p rest ih =>
    obtain ⟨pk, pv⟩ := p
    by_cases hpk : pk = k
    · subst hpk
      simp [setAnno, lookupAnno, Ne.symm h]
    · simp [setAnno, lookupAnno, hpk, ih]

/-- The possible outcomes of `AnnotateIngress`: an untouched resource with a
false or error outcome, or a patch of exactly the whitelist annotation with a
true outcome. -/
theorem annotateIngress_cases (s : Service) (i : Ingress) :
    AnnotateIngress s i = (.ok false, i) ∨
    (∃ e, AnnotateIngress s i = (.error e, i)) ∨
    (∃ v, AnnotateIngress s i =
      (.ok true, { i with annotations := setAnno i.annotations nginxWhitelistSourceRangeKey v })) := by
  by_cases hp : shouldPatchSourceRangeWhitelist i
  · cases hr : (GetProviderIPSourceRanges s i).1 with
    | error e =>
      exact Or.inr (Or.inl ⟨e, by simp [AnnotateIngress, hp, hr]⟩)
    | ok rs =>
      by_cases hrs : rs = []
      · exact Or.inl (by simp [AnnotateIngress, hp, hr, hrs])
      · by_cases hm : (mergeProviderSourceRanges
            (splitCommaStr ((lookupAnno i.annotations nginxWhitelistSourceRangeKey).getD ""))
            rs).2 = true
        · refine Or.inr (Or.inr ⟨String.intercalate ","
            (mergeProviderSourceRanges
              (splitCommaStr ((lookupAnno i.annotations nginxWhitelistSourceRangeKey).getD ""))
              rs).1, ?_⟩)
          simp [AnnotateIngress, hp, hr, hrs, hm]
        · exact Or.inl (by simp [AnnotateIngress, hp, hr, hrs, hm])
  · exact Or.inl (by simp [AnnotateIngress, hp])

/-- C10: `AnnotateIngress` touches at most the whitelist-source-range
annotation and only in an invocation reporting updated = true; on a false or
error outcome the resource is returned exactly unchanged; an absent whitelist
annotation or a non-true enabled annotation short-circuits to an unchanged
false outcome (so the whitelist annotation is never created), and a failing
range lookup propagates its error with the resource unchanged. -/
theorem annotateIngress_frame (s : Service) (i : Ingress) :
    ((AnnotateIngress s i).1 ≠ .ok true → (AnnotateIngress s i).2 = i) ∧
    ((AnnotateIngress s i).1 = .ok true →
        ∃ v, (AnnotateIngress s i).2 =
          { i with annotations := setAnno i.annotations nginxWhitelistSourceRangeKey v }) ∧
    (∀ k, k ≠ nginxWhitelistSourceRangeKey →
        lookupAnno (AnnotateIngress s i).2.annotations k = lookupAnno i.annotations k) ∧
    (lookupAnno i.annotations nginxWhitelistSourceRangeKey = none →
        AnnotateIngress s i = (.ok false, i)) ∧
    (boolValue i.annotations annoEnabledKey = false → AnnotateIngress s i = (.ok false, i)) ∧
    (∀ e, shouldPatchSourceRangeWhitelist i = true →
        (GetProviderIPSourceRanges s i).1 = .error e →
        AnnotateIngress s i = (.error e, i)) := by
  refine ⟨?_, ?_, ?_, ?_, ?_, ?_⟩
  · intro hne
    rcases annotateIngress_cases s i with h | ⟨e, h⟩ | ⟨v, h⟩
    · rw [h]
    · rw [h]
    · rw [h] at hne
      simp at hne
  · intro htrue
    rcases annotateIngress_cases s i with h | ⟨e, h⟩ | ⟨v, h⟩
    · rw [h] at htrue
      simp at htrue
    · rw [h] at htrue
      simp at htrue
    · exact ⟨v, by rw [h]⟩
  · intro k hk
    rcases annotateIngress_cases s i with h | ⟨e, h⟩ | ⟨v, h⟩
    · rw [h]
    · rw [h]
    · rw [h]
      exact lookupAnno_setAnno_ne i.annotations _ v k hk
  · intro habsent
    have hp : shouldPatchSourceRangeWhitelist i = false := by
      simp [shouldPatchSourceRangeWhitelist, habsent]
    simp [AnnotateIngress, hp]
  · intro hfalse
    have hp : shouldPatchSourceRangeWhitelist i = false := by
      simp [shouldPatchSourceRangeWhitelist, hfalse]
    simp [AnnotateIngress, hp]
  · intro e hp hr
    simp [AnnotateIngress, hp, hr]

/-- An enabled resource whose whitelist annotation holds one range. -/
def whitelistedIngress : Ingress :=
  { ns := "kube-system", name := "foo"
    annotations := [(annoEnabledKey, "true"), (nginxWhitelistSourceRangeKey, "1.2.3.4/32")]
    spec := { tls := [], rules := [{ host := "foo.bar.baz" }] } }

/-- C10 witness: the not-enabled resource comes back untouched with a false
outcome, and a patched invocation touches only the whitelist key: the enabled
annotation reads the same afterwards. -/
theorem annotateIngress_frame_witness :
    AnnotateIngress wSvcNotFound plainExampleIngress = (.ok false, plainExampleIngress) ∧
    lookupAnno (AnnotateIngress wSvcNotFound whitelistedIngress).2.annotations annoEnabledKey =
      lookupAnno whitelistedIngress.annotations annoEnabledKey ∧
    (AnnotateIngress wSvcNotFound plainExampleIngress).2 = plainExampleIngress := by
  have h1 := (annotateIngress_frame wSvcNotFound plainExampleIngress).2.2.2.2.1 rfl
  refine ⟨h1, ?_, ?_⟩
  · exact (annotateIngress_frame wSvcNotFound whitelistedIngress).2.2.1 annoEnabledKey
      (by decide)
  · exact (annotateIngress_frame wSvcNotFound plainExampleIngress).1
      (by rw [h1]; simp)

/-- What a successful location-profile finalizer run can do to the monitor:
only the location-profile field changes; a non-empty field is kept, and an
empty field under auto-discovery becomes the first listed candidate. -/
theorem finalizeLocationProfile_ok (b : Builder) (m m' : Site24x7Monitor)
    (h : finalizeLocationProfile b m = .ok m') :
    ∃ x, m' = { m with locationProfileID := x } ∧
      (m.locationProfileID ≠ "" → x = m.locationProfileID) ∧
      (m.locationProfileID = "" → b.defaults.autoLocationProfile = true →
        b.client.locationProfiles.head? = some x) := by
  unfold finalizeLocationProfile at h
  split at h
  next hcond =>
    cases hl : b.client.locationProfiles with
    | nil => rw [hl] at h; cases h
    | cons p ps =>
      rw [hl] at h
      injection h with h
      have hempty : m.locationProfileID = "" := by
        simpa using ((Bool.and_eq_true _ _).mp hcond).2
      exact ⟨p, h.symm, fun hne => absurd hempty hne, fun _ _ => rfl⟩
  next hcond =>
    injection h with h
    refine ⟨m.locationProfileID, by rw [← h], fun _ => rfl, ?_⟩
    intro hempty hauto
    exact absurd (by simp [hauto, hempty]) hcond

/-- Same characterization for the notification-profile finalizer. -/
theorem finalizeNotificationProfile_ok (b : Builder) (m m' : Site24x7Monitor)
    (h : finalizeNotificationProfile b m = .ok m') :
    ∃ x, m' = { m with notificationProfileID := x } ∧
      (m.notificationProfileID ≠ "" → x = m.notificationProfileID) ∧
      (m.notificationProfileID = "" → b.defaults.autoNotificationProfile = true →
        b.client.notificationProfiles.head? = some x) := by
  unfold finalizeNotificationProfile at h
  split at h
  next hcond =>
    cases hl : b.client.notificationProfiles with
    | nil => rw [hl] at h; cases h
    | cons p ps =>
      rw [hl] at h
      injection h with h
      have hempty : m.notificationProfileID = "" := by
        simpa using ((Bool.and_eq_true _ _).mp hcond).2
      exact ⟨p, h.symm, fun hne => absurd hempty hne, fun _ _ => rfl⟩
  next hcond =>
    injection h with h
    refine ⟨m.notificationProfileID, by rw [← h], fun _ => rfl, ?_⟩
    intro hempty hauto
    exact absurd (by simp [hauto, hempty]) hcond

/-- Same characterization for the threshold-profile finalizer. -/
theorem finalizeThresholdProfile_ok (b : Builder) (m m' : Site24x7Monitor)
    (h : finalizeThresholdProfile b m = .ok m') :
    ∃ x, m' = { m with thresholdProfileID := x } ∧
      (m.thresholdProfileID ≠ "" → x = m.thresholdProfileID) ∧
      (m.thresholdProfileID = "" → b.defaults.autoThresholdProfile = true →
        b.client.thresholdProfiles.head? = some x) := by
  unfold finalizeThresholdProfile at h
  split at h
  next hcond =>
    cases hl : b.client.thresholdProfiles with
    | nil => rw [hl] at h; cases h
    | cons p ps =>
      rw [hl] at h
      injection h with h
      have hempty : m.thresholdProfileID = "" := by
        simpa using ((Bool.and_eq_true _ _).mp hcond).2
      exact ⟨p, h.symm, fun hne => absurd hempty hne, fun _ _ => rfl⟩
  next hcond =>
    injection h with h
    refine ⟨m.thresholdProfileID, by rw [← h], fun _ => rfl, ?_⟩
    intro hempty hauto
    exact absurd (by simp [hauto, hempty]) hcond

/-- Same characterization for the monitor-group finalizer (the field is a
list, unset means empty, and auto-discovery installs the singleton of the
first candidate). -/
theorem finalizeMonitorGroup_ok (b : Builder) (m m' : Site24x7Monitor)
    (h : finalizeMonitorGroup b m = .ok m') :
    ∃ x, m' = { m with monitorGroups := x } ∧
      (m.monitorGroups ≠ [] → x = m.monitorGroups) ∧
      (m.monitorGroups = [] → b.defaults.autoMonitorGroup = true →
        ∃ g gs, b.client.monitorGroups = g :: gs ∧ x = [g]) := by
  unfold finalizeMonitorGroup at h
  split at h
  next hcond =>
    cases hl : b.client.monitorGroups with
    | nil => rw [hl] at h; cases h
    | cons g gs =>
      rw [hl] at h
      injection h with h
      have hempty : m.monitorGroups = [] := by
        simpa using ((Bool.and_eq_true _ _).mp hcond).2
      exact ⟨[g], h.symm, fun hne => absurd hempty hne, fun _ _ => ⟨g, gs, rfl, rfl⟩⟩
  next hcond =>
    injection h with h
    refine ⟨m.monitorGroups, by rw [← h], fun _ => rfl, ?_⟩
    intro hempty hauto
    exact absurd (by simp [hauto, hempty]) hcond

/-- Same characterization for the user-group finalizer. -/
theorem finalizeUserGroup_ok (b : Builder) (m m' : Site24x7Monitor)
    (h : finalizeUserGroup b m = .ok m') :
    ∃ x, m' = { m with userGroupIDs := x } ∧
      (m.userGroupIDs ≠ [] → x = m.userGroupIDs) ∧
      (m.userGroupIDs = [] → b.defaults.autoUserGroup = true →
        ∃ g gs, b.client.userGroups = g :: gs ∧ x = [g]) := by
  unfold finalizeUserGroup at h
  split at h
  next hcond =>
    cases hl : b.client.userGroups with
    | nil => rw [hl] at h; cases h
    | cons g gs =>
      rw [hl] at h
      injection h with h
      have hempty : m.userGroupIDs = [] := by
        simpa using ((Bool.and_eq_true _ _).mp hcond).2
      exact ⟨[g], h.symm, fun hne => absurd hempty hne, fun _ _ => ⟨g, gs, rfl, rfl⟩⟩
  next hcond =>
    injection h with h
    refine ⟨m.userGroupIDs, by rw [← h], fun _ => rfl, ?_⟩
    intro hempty hauto
    exact absurd (by simp [hauto, hempty]) hcond

/-- Destructor for one step of the finalizer loop: a successful run of
`f :: fs` factors through a successful run of `f`. -/
theorem runFinalizers_cons_ok (f : Site24x7Monitor → Except BuildError Site24x7Monitor)
    (fs : List (Site24x7Monitor → Except BuildError Site24x7Monitor))
    (m m' : Site24x7Monitor) (h : runFinalizers (f :: fs) m = .ok m') :
    ∃ m₁, f m = .ok m₁ ∧ runFinalizers fs m₁ = .ok m' := by
  unfold runFinalizers at h
  cases hf : f m with
  | error e => rw [hf] at h; simp at h
  | ok m₁ => rw [hf] at h; exact ⟨m₁, rfl, h⟩

/-- A successful finalizer chain touches only the five profile/group fields,
never overwrites one that is already set, and fills an empty location-profile
field under auto-discovery with the first listed candidate. -/
theorem finalizeMonitor_ok_shape (b : Builder) (m m' : Site24x7Monitor)
    (h : finalizeMonitor b m = .ok m') :
    ∃ x1 x2 x3 x4 x5,
      m' = { m with locationProfileID := x1, notificationProfileID := x2,
                    thresholdProfileID := x3, monitorGroups := x4, userGroupIDs := x5 } ∧
      (m.locationProfileID ≠ "" → x1 = m.locationProfileID) ∧
      (m.notificationProfileID ≠ "" → x2 = m.notificationProfileID) ∧
      (m.thresholdProfileID ≠ "" → x3 = m.thresholdProfileID) ∧
      (m.monitorGroups ≠ [] → x4 = m.monitorGroups) ∧
      (m.userGroupIDs ≠ [] → x5 = m.userGroupIDs) ∧
      (m.locationProfileID = "" → b.defaults.autoLocationProfile = true →
        b.client.locationProfiles.head? = some x1) := by
  unfold finalizeMonitor builderFinalizers at h
  obtain ⟨m1, h1, h⟩ := runFinalizers_cons_ok _ _ _ _ h
  obtain ⟨x1, he1, hp1, ha1⟩ := finalizeLocationProfile_ok b m m1 h1
  subst he1
  obtain ⟨m2, h2, h⟩ := runFinalizers_cons_ok _ _ _ _ h
  obtain ⟨x2, he2, hp2, ha2⟩ := finalizeNotificationProfile_ok b _ m2 h2
  subst he2
  obtain ⟨m3, h3, h⟩ := runFinalizers_cons_ok _ _ _ _ h
  obtain ⟨x3, he3, hp3, ha3⟩ := finalizeThresholdProfile_ok b _ m3 h3
  subst he3
  obtain ⟨m4, h4, h⟩ := runFinalizers_cons_ok _ _ _ _ h
  obtain ⟨x4, he4, hp4, ha4⟩ := finalizeMonitorGroup_ok b _ m4 h4
  subst he4
  obtain ⟨m5, h5, h⟩ := runFinalizers_cons_ok _ _ _ _ h
  obtain ⟨x5, he5, hp5, ha5⟩ := finalizeUserGroup_ok b _ m5 h5
  subst he5
  unfold runFinalizers at h
  injection h with h
  exact ⟨x1, x2, x3, x4, x5, h.symm, hp1, hp2, hp3, hp4, hp5, ha1⟩

/-- The monitor handed to the finalizer chain by `FromModel`: direct field
resolution with the two JSON fields installed (each falling back to its
default when the decode left the slice nil). -/
def assembledMonitor (b : Builder) (model : Monitor)
    (ch : Option (List Header)) (acts : Option (List ActionRef)) : Site24x7Monitor :=
  { directResolve b model with
    customHeaders := if ch.isNone then b.defaults.customHeaders else ch
    actionIDs := if acts.isNone then b.defaults.actions else acts }

/-- Destructor for a successful `FromModel` run: both JSON parses succeeded
and the finalizer chain ran on the assembled monitor. -/
theorem fromModel_ok_destruct (b : Builder) (model : Monitor) (m : Site24x7Monitor)
    (h : FromModel b model = .ok m) :
    ∃ ch acts,
      parseJSONField model.annotations s24CustomHeadersKey b.decodeHeaders = .ok ch ∧
      parseJSONField model.annotations s24ActionsKey b.decodeActions = .ok acts ∧
      finalizeMonitor b (assembledMonitor b model ch acts) = .ok m := by
  unfold FromModel at h
  cases hch : parseJSONField model.annotations s24CustomHeadersKey b.decodeHeaders with
  | error e => rw [hch] at h; simp at h
  | ok ch =>
    rw [hch] at h
    cases hac : parseJSONField model.annotations s24ActionsKey b.decodeActions with
    | error e => rw [hac] at h; simp at h
    | ok acts =>
      rw [hac] at h
      exact ⟨ch, acts, rfl, rfl, h⟩

/-- Combined shape of a successful `FromModel` run. -/
theorem fromModel_ok_shape (b : Builder) (model : Monitor) (m : Site24x7Monitor)
    (h : FromModel b model = .ok m) :
    ∃ ch acts x1 x2 x3 x4 x5,
      parseJSONField model.annotations s24CustomHeadersKey b.decodeHeaders = .ok ch ∧
      parseJSONField model.annotations s24ActionsKey b.decodeActions = .ok acts ∧
      m = { assembledMonitor b model ch acts with
            locationProfileID := x1, notificationProfileID := x2, thresholdProfileID := x3,
            monitorGroups := x4, userGroupIDs := x5 } ∧
      ((assembledMonitor b model ch acts).locationProfileID ≠ "" →
        x1 = (assembledMonitor b model ch acts).locationProfileID) ∧
      ((assembledMonitor b model ch acts).notificationProfileID ≠ "" →
        x2 = (assembledMonitor b model ch acts).notificationProfileID) ∧
      ((assembledMonitor b model ch acts).thresholdProfileID ≠ "" →
        x3 = (assembledMonitor b model ch acts).thresholdProfileID) ∧
      ((assembledMonitor b model ch acts).monitorGroups ≠ [] →
        x4 = (assembledMonitor b model ch acts).monitorGroups) ∧
      ((assembledMonitor b model ch acts).userGroupIDs ≠ [] →
        x5 = (assembledMonitor b model ch acts).userGroupIDs) ∧
      ((assembledMonitor b model ch acts).locationProfileID = "" →
        b.defaults.autoLocationProfile = true →
        b.client.locationProfiles.head? = some x1) := by
  obtain ⟨ch, acts, hch, hac, hfin⟩ := fromModel_ok_destruct b model m h
  obtain ⟨x1, x2, x3, x4, x5, hm, hp1, hp2, hp3, hp4, hp5, ha1⟩ :=
    finalizeMonitor_ok_shape b _ m hfin
  exact ⟨ch, acts, x1, x2, x3, x4, x5, hch, hac, hm, hp1, hp2, hp3, hp4, hp5, ha1⟩

/-- C7: for every configurable field of the Site24x7 monitor configuration, a
present annotation override determines the resolved value, over any defaults,
any auto-discovery flags and any provider candidate lists: string fields take
the annotation value, boolean and integer fields its parsed value, list
fields its comma-split, JSON fields their (non-nil) decode — and the
finalizers never overwrite a field set this way.  Auto-discovery also never
overwrites a field set by a default: with the annotation absent and the
operator default non-empty, each finalized field resolves to the default,
over any auto-discovery flags and candidate lists. -/
theorem fromModel_override_precedence :
    (∀ (b : Builder) (model : Monitor) (v : String),
      lookupAnno model.annotations s24CheckFrequencyKey = some v →
      ∀ m, FromModel b model = .ok m → m.checkFrequency = v) ∧
    (∀ (b : Builder) (model : Monitor) (v : String),
      lookupAnno model.annotations s24HTTPMethodKey = some v →
      ∀ m, FromModel b model = .ok m → m.httpMethod = v) ∧
    (∀ (b : Builder) (model : Monitor) (v : String),
      lookupAnno model.annotations s24AuthUserKey = some v →
      ∀ m, FromModel b model = .ok m → m.authUser = v) ∧
    (∀ (b : Builder) (model : Monitor) (v : String),
      lookupAnno model.annotations s24AuthPassKey = some v →
      ∀ m, FromModel b model = .ok m → m.authPass = v) ∧
    (∀ (b : Builder) (model : Monitor) (v : String) (bv : Bool),
      lookupAnno model.annotations s24MatchCaseKey = some v → parseBool? v = some bv →
      ∀ m, FromModel b model = .ok m → m.matchCase = bv) ∧
    (∀ (b : Builder) (model : Monitor) (v : String),
      lookupAnno model.annotations s24UserAgentKey = some v →
      ∀ m, FromModel b model = .ok m → m.userAgent = v) ∧
    (∀ (b : Builder) (model : Monitor) (v : String) (n : Int),
      lookupAnno model.annotations s24TimeoutKey = some v → v.toInt? = some n →
      ∀ m, FromModel b model = .ok m → m.timeout = n) ∧
    (∀ (b : Builder) (model : Monitor) (v : String) (bv : Bool),
      lookupAnno model.annotations s24UseNameServerKey = some v → parseBool? v = some bv →
      ∀ m, FromModel b model = .ok m → m.useNameServer = bv) ∧
    (∀ (b : Builder) (model : Monitor) (v : String),
      lookupAnno model.annotations s24UserGroupIDsKey = some v →
      ∀ m, FromModel b model = .ok m → m.userGroupIDs = splitCommaStr v) ∧
    (∀ (b : Builder) (model : Monitor) (v : String),
      lookupAnno model.annotations s24MonitorGroupIDsKey = some v →
      ∀ m, FromModel b model = .ok m → m.monitorGroups = splitCommaStr v) ∧
    (∀ (b : Builder) (model : Monitor) (v : String),
      lookupAnno model.annotations s24LocationProfileIDKey = some v → v ≠ "" →
      ∀ m, FromModel b model = .ok m → m.locationProfileID = v) ∧
    (∀ (b : Builder) (model : Monitor) (v : String),
      lookupAnno model.annotations s24NotificationProfileIDKey = some v → v ≠ "" →
      ∀ m, FromModel b model = .ok m → m.notificationProfileID = v) ∧
    (∀ (b : Builder) (model : Monitor) (v : String),
      lookupAnno model.annotations s24ThresholdProfileIDKey = some v → v ≠ "" →
      ∀ m, FromModel b model = .ok m → m.thresholdProfileID = v) ∧
    (∀ (b : Builder) (model : Monitor) (raw : String) (hs : List Header),
      lookupAnno model.annotations s24CustomHeadersKey = some raw →
      b.decodeHeaders raw = some (some hs) →
      ∀ m, FromModel b model = .ok m → m.customHeaders = some hs) ∧
    (∀ (b : Builder) (model : Monitor) (raw : String) (as : List ActionRef),
      lookupAnno model.annotations s24ActionsKey = some raw →
      b.decodeActions raw = some (some as) →
      ∀ m, FromModel b model = .ok m → m.actionIDs = some as) ∧
    (∀ (b : Builder) (model : Monitor),
      lookupAnno model.annotations s24LocationProfileIDKey = none →
      b.defaults.locationProfileID ≠ "" →
      ∀ m, FromModel b model = .ok m →
        m.locationProfileID = b.defaults.locationProfileID) ∧
    (∀ (b : Builder) (model : Monitor),
      lookupAnno model.annotations s24NotificationProfileIDKey = none →
      b.defaults.notificationProfileID ≠ "" →
      ∀ m, FromModel b model = .ok m →
        m.notificationProfileID = b.defaults.notificationProfileID) ∧
    (∀ (b : Builder) (model : Monitor),
      lookupAnno model.annotations s24ThresholdProfileIDKey = none →
      b.defaults.thresholdProfileID ≠ "" →
      ∀ m, FromModel b model = .ok m →
        m.thresholdProfileID = b.defaults.thresholdProfileID) ∧
    (∀ (b : Builder) (model : Monitor),
      lookupAnno model.annotations s24MonitorGroupIDsKey = none →
      b.defaults.monitorGroupIDs ≠ [] →
      ∀ m, FromModel b model = .ok m →
        m.monitorGroups = b.defaults.monitorGroupIDs) ∧
    (∀ (b : Builder) (model : Monitor),
      lookupAnno model.annotations s24UserGroupIDsKey = none →
      b.defaults.userGroupIDs ≠ [] →
      ∀ m, FromModel b model = .ok m →
        m.userGroupIDs = b.defaults.userGroupIDs) := by
  refine ⟨?_, ?_, ?_, ?_, ?_, ?_, ?_, ?_, ?_, ?_, ?_, ?_, ?_, ?_, ?_, ?_, ?_, ?_, ?_, ?_⟩
  · intro b model v hv m h
    obtain ⟨ch, acts, _, _, _, _, _, hch, hac, hm, _⟩ := fromModel_ok_shape b model m h
    subst hm
    simp [assembledMonitor, directResolve, stringValue, hv]
  · intro b model v hv m h
    obtain ⟨ch, acts, _, _, _, _, _, hch, hac, hm, _⟩ := fromModel_ok_shape b model m h
    subst hm
    simp [assembledMonitor, directResolve, stringValue, hv]
  · intro b model v hv m h
    obtain ⟨ch, acts, _, _, _, _, _, hch, hac, hm, _⟩ := fromModel_ok_shape b model m h
    subst hm
    simp [assembledMonitor, directResolve, stringValue, hv]
  · intro b model v hv m h
    obtain ⟨ch, acts, _, _, _, _, _, hch, hac, hm, _⟩ := fromModel_ok_shape b model m h
    subst hm
    simp [assembledMonitor, directResolve, stringValue, hv]
  · intro b model v bv hv hb m h
    obtain ⟨ch, acts, _, _, _, _, _, hch, hac, hm, _⟩ := fromModel_ok_shape b model m h
    subst hm
    simp [assembledMonitor, directResolve, boolValue, hv, hb]
  · intro b model v hv m h
    obtain ⟨ch, acts, _, _, _, _, _, hch, hac, hm, _⟩ := fromModel_ok_shape b model m h
    subst hm
    simp [assembledMonitor, directResolve, stringValue, hv]
  · intro b model v n hv hn m h
    obtain ⟨ch, acts, _, _, _, _, _, hch, hac, hm, _⟩ := fromModel_ok_shape b model m h
    subst hm
    simp [assembledMonitor, directResolve, intValue, hv, hn]
  · intro b model v bv hv hb m h
    obtain ⟨ch, acts, _, _, _, _, _, hch, hac, hm, _⟩ := fromModel_ok_shape b model m h
    subst hm
    simp [assembledMonitor, directResolve, boolValue, hv, hb]
  · intro b model v hv m h
    obtain ⟨ch, acts, x1, x2, x3, x4, x5, hch, hac, hm, hp1, hp2, hp3, hp4, hp5, ha1⟩ :=
      fromModel_ok_shape b model m h
    subst hm
    have hfield : (assembledMonitor b model ch acts).userGroupIDs = splitCommaStr v := by
      simp [assembledMonitor, directResolve, stringSliceValue, hv]
    have hx := hp5 (by rw [hfield]; exact splitCommaStr_ne_nil v)
    show x5 = splitCommaStr v
    rw [hx, hfield]
  · intro b model v hv m h
    obtain ⟨ch, acts, x1, x2, x3, x4, x5, hch, hac, hm, hp1, hp2, hp3, hp4, hp5, ha1⟩ :=
      fromModel_ok_shape b model m h
    subst hm
    have hfield : (assembledMonitor b model ch acts).monitorGroups = splitCommaStr v := by
      simp [assembledMonitor, directResolve, stringSliceValue, hv]
    have hx := hp4 (by rw [hfield]; exact splitCommaStr_ne_nil v)
    show x4 = splitCommaStr v
    rw [hx, hfield]
  · intro b model v hv hne m h
    obtain ⟨ch, acts, x1, x2, x3, x4, x5, hch, hac, hm, hp1, hp2, hp3, hp4, hp5, ha1⟩ :=
      fromModel_ok_shape b model m h
    subst hm
    have hfield : (assembledMonitor b model ch acts).locationProfileID = v := by
      simp [assembledMonitor, directResolve, stringValue, hv]
    have hx := hp1 (by rw [hfield]; exact hne)
    show x1 = v
    rw [hx, hfield]
  · intro b model v hv hne m h
    obtain ⟨ch, acts, x1, x2, x3, x4, x5, hch, hac, hm, hp1, hp2, hp3, hp4, hp5, ha1⟩ :=
      fromModel_ok_shape b model m h
    subst hm
    have hfield : (assembledMonitor b model ch acts).notificationProfileID = v := by
      simp [assembledMonitor, directResolve, stringValue, hv]
    have hx := hp2 (by rw [hfield]; exact hne)
    show x2 = v
    rw [hx, hfield]
  · intro b model v hv hne m h
    obtain ⟨ch, acts, x1, x2, x3, x4, x5, hch, hac, hm, hp1, hp2, hp3, hp4, hp5, ha1⟩ :=
      fromModel_ok_shape b model m h
    subst hm
    have hfield : (assembledMonitor b model ch acts).thresholdProfileID = v := by
      simp [assembledMonitor, directResolve, stringValue, hv]
    have hx := hp3 (by rw [hfield]; exact hne)
    show x3 = v
    rw [hx, hfield]
  · intro b model raw hs hv hdec m h
    obtain ⟨ch, acts, _, _, _, _, _, hch, hac, hm, _⟩ := fromModel_ok_shape b model m h
    subst hm
    have h2 : parseJSONField model.annotations s24CustomHeadersKey b.decodeHeaders =
        .ok (some hs) := by
      simp [parseJSONField, hv, hdec]
    rw [h2] at hch
    injection hch with hch
    subst hch
    simp [assembledMonitor]
  · intro b model raw as hv hdec m h
    obtain ⟨ch, acts, _, _, _, _, _, hch, hac, hm, _⟩ := fromModel_ok_shape b model m h
    subst hm
    have h2 : parseJSONField model.annotations s24ActionsKey b.decodeActions =
        .ok (some as) := by
      simp [parseJSONField, hv, hdec]
    rw [h2] at hac
    injection hac with hac
    subst hac
    simp [assembledMonitor]
  · intro b model hv hne m h
    obtain ⟨ch, acts, x1, x2, x3, x4, x5, hch, hac, hm, hp1, hp2, hp3, hp4, hp5, ha1⟩ :=
      fromModel_ok_shape b model m h
    subst hm
    have hfield : (assembledMonitor b model ch acts).locationProfileID =
        b.defaults.locationProfileID := by
      simp [assembledMonitor, directResolve, stringValue, hv]
    have hx := hp1 (by rw [hfield]; exact hne)
    show x1 = b.defaults.locationProfileID
    rw [hx, hfield]
  · intro b model hv hne m h
    obtain ⟨ch, acts, x1, x2, x3, x4, x5, hch, hac, hm, hp1, hp2, hp3, hp4, hp5, ha1⟩ :=
      fromModel_ok_shape b model m h
    subst hm
    have hfield : (assembledMonitor b model ch acts).notificationProfileID =
        b.defaults.notificationProfileID := by
      simp [assembledMonitor, directResolve, stringValue, hv]
    have hx := hp2 (by rw [hfield]; exact hne)
    show x2 = b.defaults.notificationProfileID
    rw [hx, hfield]
  · intro b model hv hne m h
    obtain ⟨ch, acts, x1, x2, x3, x4, x5, hch, hac, hm, hp1, hp2, hp3, hp4, hp5, ha1⟩ :=
      fromModel_ok_shape b model m h
    subst hm
    have hfield : (assembledMonitor b model ch acts).thresholdProfileID =
        b.defaults.thresholdProfileID := by
      simp [assembledMonitor, directResolve, stringValue, hv]
    have hx := hp3 (by rw [hfield]; exact hne)
    show x3 = b.defaults.thresholdProfileID
    rw [hx, hfield]
  · intro b model hv hne m h
    obtain ⟨ch, acts, x1, x2, x3, x4, x5, hch, hac, hm, hp1, hp2, hp3, hp4, hp5, ha1⟩ :=
      fromModel_ok_shape b model m h
    subst hm
    have hfield : (assembledMonitor b model ch acts).monitorGroups =
        b.defaults.monitorGroupIDs := by
      simp [assembledMonitor, directResolve, stringSliceValue, hv]
    have hx := hp4 (by rw [hfield]; exact hne)
    show x4 = b.defaults.monitorGroupIDs
    rw [hx, hfield]
  · intro b model hv hne m h
    obtain ⟨ch, acts, x1, x2, x3, x4, x5, hch, hac, hm, hp1, hp2, hp3, hp4, hp5, ha1⟩ :=
      fromModel_ok_shape b model m h
    subst hm
    have hfield : (assembledMonitor b model ch acts).userGroupIDs =
        b.defaults.userGroupIDs := by
      simp [assembledMonitor, directResolve, stringSliceValue, hv]
    have hx := hp5 (by rw [hfield]; exact hne)
    show x5 = b.defaults.userGroupIDs
    rw [hx, hfield]

/-- C8: each auto-discovery finalizer, when enabled for a field left unset,
installs the first candidate the provider lists and fails with the
no-profiles error when the provider lists zero candidates; a failing
finalizer anywhere in the chain aborts the whole run (no monitor results),
and on the whole resolution a zero-candidate location-profile discovery makes
`FromModel` fail while a non-empty one resolves the field to the first
candidate. -/
theorem fromModel_auto_discovery :
    (∀ (b : Builder) (m : Site24x7Monitor) (c : String) (cs : List String),
      b.defaults.autoLocationProfile = true → m.locationProfileID = "" →
      b.client.locationProfiles = c :: cs →
      finalizeLocationProfile b m = .ok { m with locationProfileID := c }) ∧
    (∀ (b : Builder) (m : Site24x7Monitor) (c : String) (cs : List String),
      b.defaults.autoNotificationProfile = true → m.notificationProfileID = "" →
      b.client.notificationProfiles = c :: cs →
      finalizeNotificationProfile b m = .ok { m with notificationProfileID := c }) ∧
    (∀ (b : Builder) (m : Site24x7Monitor) (c : String) (cs : List String),
      b.defaults.autoThresholdProfile = true → m.thresholdProfileID = "" →
      b.client.thresholdProfiles = c :: cs →
      finalizeThresholdProfile b m = .ok { m with thresholdProfileID := c }) ∧
    (∀ (b : Builder) (m : Site24x7Monitor) (c : String) (cs : List String),
      b.defaults.autoMonitorGroup = true → m.monitorGroups = [] →
      b.client.monitorGroups = c :: cs →
      finalizeMonitorGroup b m = .ok { m with monitorGroups := [c] }) ∧
    (∀ (b : Builder) (m : Site24x7Monitor) (c : String) (cs : List String),
      b.defaults.autoUserGroup = true → m.userGroupIDs = [] →
      b.client.userGroups = c :: cs →
      finalizeUserGroup b m = .ok { m with userGroupIDs := [c] }) ∧
    (∀ (b : Builder) (m : Site24x7Monitor),
      b.defaults.autoLocationProfile = true → m.locationProfileID = "" →
      b.client.locationProfiles = [] →
      finalizeLocationProfile b m = .error (.noProfilesConfigured "location profiles")) ∧
    (∀ (b : Builder) (m : Site24x7Monitor),
      b.defaults.autoNotificationProfile = true → m.notificationProfileID = "" →
      b.client.notificationProfiles = [] →
      finalizeNotificationProfile b m = .error (.noProfilesConfigured "notification profiles")) ∧
    (∀ (b : Builder) (m : Site24x7Monitor),
      b.defaults.autoThresholdProfile = true → m.thresholdProfileID = "" →
      b.client.thresholdProfiles = [] →
      finalizeThresholdProfile b m = .error (.noProfilesConfigured "threshold profiles")) ∧
    (∀ (b : Builder) (m : Site24x7Monitor),
      b.defaults.autoMonitorGroup = true → m.monitorGroups = [] →
      b.client.monitorGroups = [] →
      finalizeMonitorGroup b m = .error (.noProfilesConfigured "monitor groups")) ∧
    (∀ (b : Builder) (m : Site24x7Monitor),
      b.defaults.autoUserGroup = true → m.userGroupIDs = [] →
      b.client.userGroups = [] →
      finalizeUserGroup b m = .error (.noProfilesConfigured "user groups")) ∧
    (∀ (fs1 : List (Site24x7Monitor → Except BuildError Site24x7Monitor))
       (f : Site24x7Monitor → Except BuildError Site24x7Monitor)
       (fs2 : List (Site24x7Monitor → Except BuildError Site24x7Monitor))
       (m m1 : Site24x7Monitor) (e : BuildError),
      runFinalizers fs1 m = .ok m1 → f m1 = .error e →
      runFinalizers (fs1 ++ f :: fs2) m = .error e) ∧
    (∀ (b : Builder) (model : Monitor),
      b.defaults.autoLocationProfile = true →
      lookupAnno model.annotations s24LocationProfileIDKey = none →
      b.defaults.locationProfileID = "" →
      lookupAnno model.annotations s24CustomHeadersKey = none →
      lookupAnno model.annotations s24ActionsKey = none →
      b.client.locationProfiles = [] →
      FromModel b model = .error (.noProfilesConfigured "location profiles")) ∧
    (∀ (b : Builder) (model : Monitor) (c : String) (cs : List String),
      b.defaults.autoLocationProfile = true →
      lookupAnno model.annotations s24LocationProfileIDKey = none →
      b.defaults.locationProfileID = "" →
      b.client.locationProfiles = c :: cs →
      ∀ m, FromModel b model = .ok m → m.locationProfileID = c) := by
  refine ⟨?_, ?_, ?_, ?_, ?_, ?_, ?_, ?_, ?_, ?_, ?_, ?_, ?_⟩
  · intro b m c cs hauto hunset hlist
    simp [finalizeLocationProfile, hauto, hunset, hlist]
  · intro b m c cs hauto hunset hlist
    simp [finalizeNotificationProfile, hauto, hunset, hlist]
  · intro b m c cs hauto hunset hlist
    simp [finalizeThresholdProfile, hauto, hunset, hlist]
  · intro b m c cs hauto hunset hlist
    simp [finalizeMonitorGroup, hauto, hunset, hlist]
  · intro b m c cs hauto hunset hlist
    simp [finalizeUserGroup, hauto, hunset, hlist]
  · intro b m hauto hunset hlist
    simp [finalizeLocationProfile, hauto, hunset, hlist]
  · intro b m hauto hunset hlist
    simp [finalizeNotificationProfile, hauto, hunset, hlist]
  · intro b m hauto hunset hlist
    simp [finalizeThresholdProfile, hauto, hunset, hlist]
  · intro b m hauto hunset hlist
    simp [finalizeMonitorGroup, hauto, hunset, hlist]
  · intro b m hauto hunset hlist
    simp [finalizeUserGroup, hauto, hunset, hlist]
  · intro fs1 f fs2 m m1 e h1 h2
    induction fs1 generalizing m with
    | nil =>
      unfold runFinalizers at h1
      injection h1 with h1
      subst h1
      simp only [List.nil_append]
      unfold runFinalizers
      rw [h2]
    | cons g gs ih =>
      obtain ⟨mg, hg, hrest⟩ := runFinalizers_cons_ok g gs m m1 h1
      simp only [List.cons_append]
      unfold runFinalizers
      rw [hg]
      exact ih mg hrest
  · intro b model hauto hloc hdef hch hac hlist
    have hfield : (assembledMonitor b model none none).locationProfileID = "" := by
      simp [assembledMonitor, directResolve, stringValue, hloc, hdef]
    have hstep : FromModel b model = finalizeMonitor b (assembledMonitor b model none none) := by
      simp [FromModel, parseJSONField, hch, hac, assembledMonitor]
    rw [hstep]
    have hfin : finalizeLocationProfile b (assembledMonitor b model none none) =
        .error (.noProfilesConfigured "location profiles") := by
      simp [finalizeLocationProfile, hauto, hfield, hlist]
    unfold finalizeMonitor builderFinalizers runFinalizers
    rw [hfin]
  · intro b model c cs hauto hloc hdef hlist m h
    obtain ⟨ch, acts, x1, x2, x3, x4, x5, hch, hac, hm, hp1, hp2, hp3, hp4, hp5, ha1⟩ :=
      fromModel_ok_shape b model m h
    subst hm
    have hfield : (assembledMonitor b model ch acts).locationProfileID = "" := by
      simp [assembledMonitor, directResolve, stringValue, hloc, hdef]
    have hx := ha1 hfield hauto
    rw [hlist] at hx
    simp only [List.head?_cons, Option.some_inj] at hx
    show x1 = c
    exact hx.symm

/-- C9: a present but malformed JSON annotation (custom headers or alert
actions) is a hard error naming the key and raw value, producing no monitor
configuration; an absent JSON annotation falls back to the configured default
list. -/
theorem fromModel_json_errors :
    (∀ (b : Builder) (model : Monitor) (raw : String),
      lookupAnno model.annotations s24CustomHeadersKey = some raw →
      b.decodeHeaders raw = none →
      FromModel b model = .error (.invalidAnnoJSON s24CustomHeadersKey raw)) ∧
    (∀ (b : Builder) (model : Monitor) (raw : String) (ch : Option (List Header)),
      parseJSONField model.annotations s24CustomHeadersKey b.decodeHeaders = .ok ch →
      lookupAnno model.annotations s24ActionsKey = some raw →
      b.decodeActions raw = none →
      FromModel b model = .error (.invalidAnnoJSON s24ActionsKey raw)) ∧
    (∀ (b : Builder) (model : Monitor),
      lookupAnno model.annotations s24CustomHeadersKey = none →
      ∀ m, FromModel b model = .ok m → m.customHeaders = b.defaults.customHeaders) ∧
    (∀ (b : Builder) (model : Monitor),
      lookupAnno model.annotations s24ActionsKey = none →
      ∀ m, FromModel b model = .ok m → m.actionIDs = b.defaults.actions) := by
  refine ⟨?_, ?_, ?_, ?_⟩
  · intro b model raw hv hdec
    simp [FromModel, parseJSONField, hv, hdec]
  · intro b model raw ch hch hv hdec
    have hacts : parseJSONField model.annotations s24ActionsKey b.decodeActions =
        .error (.invalidAnnoJSON s24ActionsKey raw) := by
      simp [parseJSONField, hv, hdec]
    simp [FromModel, hch, hacts]
  · intro b model hv m h
    obtain ⟨ch, acts, _, _, _, _, _, hch, hac, hm, _⟩ := fromModel_ok_shape b model m h
    subst hm
    have h2 : parseJSONField model.annotations s24CustomHeadersKey b.decodeHeaders =
        .ok none := by
      simp [parseJSONField, hv]
    rw [h2] at hch
    injection hch with hch
    subst hch
    simp [assembledMonitor]
  · intro b model hv m h
    obtain ⟨ch, acts, _, _, _, _, _, hch, hac, hm, _⟩ := fromModel_ok_shape b model m h
    subst hm
    have h2 : parseJSONField model.annotations s24ActionsKey b.decodeActions = .ok none := by
      simp [parseJSONField, hv]
    rw [h2] at hac
    injection hac with hac
    subst hac
    simp [assembledMonitor]

/-- Concrete operator defaults for witnesses: auto-discovery on, profile
fields unset, the remaining fields filled as in the shipped defaults. -/
def wDefaults : Site24x7MonitorDefaults :=
  { actions := some []
    authPass := "dpass"
    authUser := "duser"
    autoLocationProfile := true
    autoNotificationProfile := true
    autoThresholdProfile := true
    autoMonitorGroup := true
    autoUserGroup := true
    checkFrequency := "1"
    customHeaders := some []
    httpMethod := "G"
    locationProfileID := ""
    matchCase := false
    monitorGroupIDs := []
    notificationProfileID := ""
    thresholdProfileID := ""
    timeout := 10
    useNameServer := true
    userAgent := "agent"
    userGroupIDs := [] }

/-- A provider account listing one candidate of each kind. -/
def wClient : S24Client :=
  { locationProfiles := ["123"]
    notificationProfiles := ["456"]
    thresholdProfiles := ["789"]
    monitorGroups := ["345"]
    userGroups := ["012"] }

/-- A provider account listing no candidates at all. -/
def wClientEmpty : S24Client :=
  { locationProfiles := []
    notificationProfiles := []
    thresholdProfiles := []
    monitorGroups := []
    userGroups := [] }

/-- A concrete headers decoder: accepts exactly the literal `[hdr]`. -/
def wDecodeHeaders : String → Option (Option (List Header)) := fun raw =>
  if raw = "[hdr]" then some (some [{ name := "X-Test", value := "yes" }]) else none

/-- A concrete actions decoder: accepts exactly the literal `[act]`. -/
def wDecodeActions : String → Option (Option (List ActionRef)) := fun raw =>
  if raw = "[act]" then some (some [{ actionID := "1", alertType := 0 }]) else none

def wBuilder : Builder :=
  { client := wClient, defaults := wDefaults
    decodeHeaders := wDecodeHeaders, decodeActions := wDecodeActions }

def wBuilderEmpty : Builder :=
  { client := wClientEmpty, defaults := wDefaults
    decodeHeaders := wDecodeHeaders, decodeActions := wDecodeActions }

/-- A monitor model overriding the location profile and check frequency. -/
def wModelOverride : Monitor :=
  { id := "", name := "my-monitor", url := "http://my-monitor"
    annotations := [(s24LocationProfileIDKey, "456"), (s24CheckFrequencyKey, "30")] }

/-- A monitor model without any annotations. -/
def wModelPlain : Monitor :=
  { id := "", name := "my-monitor", url := "http://my-monitor", annotations := [] }

/-- A monitor model carrying a malformed actions annotation. -/
def wModelBadActions : Monitor :=
  { id := "", name := "my-monitor", url := "http://my-monitor"
    annotations := [(s24ActionsKey, "\x7binvalidjson")] }

/-- The configuration `FromModel wBuilder wModelOverride` resolves to. -/
def wExpectedOverride : Site24x7Monitor :=
  { type := "URL", monitorID := "", displayName := "my-monitor", website := "http://my-monitor"
    checkFrequency := "30", httpMethod := "G", authUser := "duser", authPass := "dpass"
    matchCase := false, userAgent := "agent", timeout := 10, useNameServer := true
    userGroupIDs := ["012"], monitorGroups := ["345"], locationProfileID := "456"
    notificationProfileID := "456", thresholdProfileID := "789"
    customHeaders := some [], actionIDs := some [] }

/-- Operator defaults presetting every profile and group field, auto-discovery
still on everywhere. -/
def wDefaultsPreset : Site24x7MonitorDefaults :=
  { wDefaults with
    locationProfileID := "L1", notificationProfileID := "N1", thresholdProfileID := "T1"
    monitorGroupIDs := ["MG1"], userGroupIDs := ["UG1"] }

def wBuilderPreset : Builder :=
  { client := wClient, defaults := wDefaultsPreset
    decodeHeaders := wDecodeHeaders, decodeActions := wDecodeActions }

/-- The configuration `FromModel wBuilderPreset wModelPlain` resolves to: the
preset defaults survive, no auto-discovered candidate replaces them. -/
def wExpectedPreset : Site24x7Monitor :=
  { type := "URL", monitorID := "", displayName := "my-monitor", website := "http://my-monitor"
    checkFrequency := "1", httpMethod := "G", authUser := "duser", authPass := "dpass"
    matchCase := false, userAgent := "agent", timeout := 10, useNameServer := true
    userGroupIDs := ["UG1"], monitorGroups := ["MG1"], locationProfileID := "L1"
    notificationProfileID := "N1", thresholdProfileID := "T1"
    customHeaders := some [], actionIDs := some [] }

/-- C7 witness: with auto-discovery on and candidate `123` listed, the
location-profile override `456` and check-frequency override `30` survive
into the resolved configuration; and with the annotations absent but the
defaults preset, the defaults `L1` and `["MG1"]` survive auto-discovery. -/
theorem fromModel_override_precedence_witness :
    FromModel wBuilder wModelOverride = .ok wExpectedOverride ∧
    wExpectedOverride.locationProfileID = "456" ∧
    wExpectedOverride.checkFrequency = "30" ∧
    FromModel wBuilderPreset wModelPlain = .ok wExpectedPreset ∧
    wExpectedPreset.locationProfileID = wBuilderPreset.defaults.locationProfileID ∧
    wExpectedPreset.monitorGroups = wBuilderPreset.defaults.monitorGroupIDs := by
  have h : FromModel wBuilder wModelOverride = .ok wExpectedOverride := by rfl
  have hpre : FromModel wBuilderPreset wModelPlain = .ok wExpectedPreset := by rfl
  refine ⟨h, ?_, ?_, hpre, ?_, ?_⟩
  · exact fromModel_override_precedence.2.2.2.2.2.2.2.2.2.2.1 wBuilder wModelOverride "456"
      rfl (by decide) wExpectedOverride h
  · exact fromModel_override_precedence.1 wBuilder wModelOverride "30" rfl wExpectedOverride h
  · exact fromModel_override_precedence.2.2.2.2.2.2.2.2.2.2.2.2.2.2.2.1 wBuilderPreset
      wModelPlain rfl (by decide) wExpectedPreset hpre
  · exact fromModel_override_precedence.2.2.2.2.2.2.2.2.2.2.2.2.2.2.2.2.2.2.1 wBuilderPreset
      wModelPlain rfl (by decide) wExpectedPreset hpre

/-- The configuration `FromModel wBuilder wModelPlain` resolves to: every
field from the defaults, the five profile/group fields auto-discovered. -/
def wExpectedPlain : Site24x7Monitor :=
  { type := "URL", monitorID := "", displayName := "my-monitor", website := "http://my-monitor"
    checkFrequency := "1", httpMethod := "G", authUser := "duser", authPass := "dpass"
    matchCase := false, userAgent := "agent", timeout := 10, useNameServer := true
    userGroupIDs := ["012"], monitorGroups := ["345"], locationProfileID := "123"
    notificationProfileID := "456", thresholdProfileID := "789"
    customHeaders := some [], actionIDs := some [] }

/-- C8 witness: with auto-discovery on, no override and no default, an empty
candidate list makes the whole resolution fail with the no-profiles error,
and a non-empty list resolves the field to the first candidate `123`. -/
theorem fromModel_auto_discovery_witness :
    FromModel wBuilderEmpty wModelPlain = .error (.noProfilesConfigured "location profiles") ∧
    FromModel wBuilder wModelPlain = .ok wExpectedPlain ∧
    wExpectedPlain.locationProfileID = "123" := by
  have h : FromModel wBuilder wModelPlain = .ok wExpectedPlain := by rfl
  refine ⟨?_, h, ?_⟩
  · exact fromModel_auto_discovery.2.2.2.2.2.2.2.2.2.2.2.1 wBuilderEmpty wModelPlain
      rfl rfl rfl rfl rfl rfl
  · exact fromModel_auto_discovery.2.2.2.2.2.2.2.2.2.2.2.2 wBuilder wModelPlain
      "123" [] rfl rfl rfl rfl wExpectedPlain h

/-- C9 witness: the malformed actions annotation `{invalidjson` makes the
build fail naming the actions key and the raw value, and with the annotation
absent the resolved actions fall back to the configured default list. -/
theorem fromModel_json_errors_witness :
    FromModel wBuilder wModelBadActions =
      .error (.invalidAnnoJSON s24ActionsKey "\x7binvalidjson") ∧
    wExpectedPlain.actionIDs = wDefaults.actions := by
  constructor
  · exact fromModel_json_errors.2.1 wBuilder wModelBadActions "\x7binvalidjson" none
      rfl rfl rfl
  · exact fromModel_json_errors.2.2.2 wBuilder wModelPlain rfl wExpectedPlain (by rfl)
